import Mathlib

/-!
Verification of the signal-scoring and risk-gated trade-execution pipeline of
the ANALIS2025 crypto trading dashboard.

The development is a shallow embedding of the relevant JavaScript modules:
* `RiskManager` (risk-manager module): trade validation, risk/reward ratio,
  position sizing, drawdown, daily statistics.
* the signal scorer (`server/signals.js`): per-timeframe weighted scoring,
  signal filtering/ranking, cross-timeframe consensus and the position
  monitor's trailing-stop update.
* the indicator library (trading module): RSI, MACD, Stochastic and the
  top-level `calculateIndicators` guard.

Modelling conventions:
* JS numbers are modelled as rationals (`ℚ`); every claim here is about
  ordered-field arithmetic with no rounding-sensitive content.
* JS truthiness of optional numeric values (`undefined`, `null`, `0` falsy)
  is modelled by `truthyQ` on `Option ℚ`; absent values are `none`.
* thrown-and-caught errors are modelled as returned rejection values
  (the source's `validateTrade` catches every throw at its boundary and
  returns `{ isValid: false, error, errorType }`); a `throw` that escapes to
  the caller is modelled as `Except.error`.
* wall-clock reads (`Date.now()`, `new Date().toDateString()`) are passed as
  explicit arguments (`now`, `currentDate`).
* human-readable message strings keep the source's wording but elide
  interpolated numeric values.
-/

namespace Analis

/-- JS truthiness of an optional numeric parameter: `undefined`/`null`
(modelled `none`) and `0` are falsy. -/
def truthyQ : Option ℚ → Bool
  | none => false
  | some q => q != 0

/-- JS `String.prototype.toLowerCase` (ASCII range, which covers every
string the trading core compares). Defined by structural recursion over the
character list so that concrete instances reduce in the kernel. -/
def jsLower (s : String) : String := ⟨s.data.map Char.toLower⟩

/-! ## Risk Manager (risk-manager module, `class RiskManager`) -/

/-- Configuration of the `RiskManager` constructor, with the source's
default values. -/
structure RiskConfig where
  maxPositionSize : ℚ := 1/10
  maxDailyLoss : ℚ := 1/50
  maxDrawdown : ℚ := 1/20
  maxOpenPositions : ℕ := 5
  minRiskRewardRatio : ℚ := 3/2
  maxLeverage : ℚ := 3
  stopLossPercentage : ℚ := 1/50
  takeProfitPercentage : ℚ := 1/25
  cooldownPeriod : ℤ := 300000
deriving Repr, DecidableEq

/-- The mutable `this.dailyStats` record. -/
structure DailyStats where
  totalPnL : ℚ
  tradesCount : ℕ
  winningTrades : ℕ
  losingTrades : ℕ
  lastResetDate : String
deriving Repr, DecidableEq

/-- The `RiskManager` instance state. `openPositions` is modelled by its
size (the only use in `validateTrade`), `lastTradeTime` as an association
list from symbol to last-trade timestamp (ms). -/
structure RMState where
  config : RiskConfig
  dailyStats : DailyStats
  openPositionsSize : ℕ
  lastTradeTime : List (String × ℤ)
  portfolioValue : ℚ
  initialPortfolioValue : ℚ
  peakPortfolioValue : ℚ
deriving Repr, DecidableEq

/-- The distinct rejection reasons thrown (and caught) inside
`validateTrade`, in source order. -/
inductive RejectReason
  | missingParams
  | symbolCooldown
  | maxOpenPositionsReached
  | dailyLossLimit
  | maxDrawdownExceeded
  | positionSizeExceeded
  | leverageExceeded
  | riskRewardTooLow
deriving Repr, DecidableEq

/-- Human-readable message of each rejection, as in the source
(interpolated numbers elided). -/
def RejectReason.message : RejectReason → String
  | .missingParams => "Missing required trade parameters"
  | .symbolCooldown => "Symbol is in cooldown period"
  | .maxOpenPositionsReached => "Maximum open positions reached"
  | .dailyLossLimit => "Daily loss limit exceeded"
  | .maxDrawdownExceeded => "Maximum drawdown exceeded"
  | .positionSizeExceeded => "Position size exceeds maximum allowed"
  | .leverageExceeded => "Leverage exceeds maximum allowed"
  | .riskRewardTooLow => "Risk-reward ratio too low"

/-- The JS error class of each rejection: `ValidationError` for malformed
input, `TradingError` for risk-rule rejections. -/
def RejectReason.errorType : RejectReason → String
  | .missingParams => "ValidationError"
  | _ => "TradingError"

/-- Result of `validateTrade`: either `isValid: true` with the computed
fields, or the structured rejection built in the catch-block. -/
inductive ValidationResult
  | valid (suggestedSize riskRewardRatio currentDrawdown : ℚ)
  | invalid (reason : RejectReason)
deriving Repr, DecidableEq

/-- The `isValid` field of the returned object. -/
def ValidationResult.isValid : ValidationResult → Bool
  | .valid _ _ _ => true
  | .invalid _ => false

/-- Trade parameters destructured at the top of `validateTrade`.
`leverage = 1` is the destructuring default (applied only when absent). -/
structure TradeParams where
  symbol : String
  side : String
  amount : Option ℚ
  price : Option ℚ
  leverage : Option ℚ
  stopLoss : Option ℚ
  takeProfit : Option ℚ
deriving Repr, DecidableEq

/-- Source `calculateDrawdown`: zero when no peak recorded, else
peak-to-current decline as a fraction of the peak. -/
def calculateDrawdown (st : RMState) : ℚ :=
  if st.peakPortfolioValue = 0 then 0
  else (st.peakPortfolioValue - st.portfolioValue) / st.peakPortfolioValue

/-- Source `isSymbolInCooldown`: true when the symbol traded less than
`cooldownPeriod` ms before `now`. -/
def isSymbolInCooldown (st : RMState) (now : ℤ) (symbol : String) : Bool :=
  match st.lastTradeTime.lookup symbol with
  | none => false
  | some t => now - t < st.config.cooldownPeriod

/-- Source `resetDailyStatsIfNewDay`: zero the daily stats when the stored
date string differs from the current one. -/
def resetDailyStatsIfNewDay (st : RMState) (currentDate : String) : RMState :=
  if st.dailyStats.lastResetDate ≠ currentDate then
    { st with dailyStats :=
      { totalPnL := 0, tradesCount := 0, winningTrades := 0, losingTrades := 0,
        lastResetDate := currentDate } }
  else st

/-- Source `calculateRiskRewardRatio`: `0` when stop-loss, take-profit or
entry price is falsy, else reward/risk oriented by side (`buy` is long),
and `0` again when the risk is non-positive. -/
def calculateRiskRewardRatio (entryPrice stopLoss takeProfit : Option ℚ)
    (side : String) : ℚ :=
  if ¬(truthyQ stopLoss && truthyQ takeProfit && truthyQ entryPrice) then 0
  else
    let e := entryPrice.getD 0
    let sl := stopLoss.getD 0
    let tp := takeProfit.getD 0
    let isLong := jsLower side = "buy"
    let risk := if isLong then e - sl else sl - e
    let reward := if isLong then tp - e else e - tp
    if 0 < risk then reward / risk else 0

/-- Source `calculateOptimalPositionSize`: requested amount when stop-loss
or entry price is falsy; otherwise the risk-budget size capped by the
request. When `riskPerShare = 0` the JS quotient is `Infinity` and the
`Math.min` yields the requested amount, which the extra branch mirrors. -/
def calculateOptimalPositionSize (st : RMState)
    (entryPrice stopLoss : Option ℚ) (requestedAmount : ℚ) : ℚ :=
  if ¬(truthyQ stopLoss && truthyQ entryPrice) then requestedAmount
  else
    let riskPerShare := |entryPrice.getD 0 - stopLoss.getD 0|
    let maxRiskAmount := st.portfolioValue * st.config.stopLossPercentage
    if riskPerShare = 0 then requestedAmount
    else min (maxRiskAmount / riskPerShare) requestedAmount

/-- The required-parameter presence test of `validateTrade`
(`!symbol || !side || !amount || !price`). -/
def requiredMissing (p : TradeParams) : Bool :=
  p.symbol == "" || p.side == "" || !truthyQ p.amount || !truthyQ p.price

/-- Source `validateTrade`. Mutating `this` is modelled by returning the
post-rollover state next to the result; every internal `throw` is caught at
the function boundary and returned as `ValidationResult.invalid`. -/
def validateTrade (st0 : RMState) (now : ℤ) (currentDate : String)
    (p : TradeParams) : RMState × ValidationResult :=
  let st := resetDailyStatsIfNewDay st0 currentDate
  let result :=
    if requiredMissing p then
      ValidationResult.invalid .missingParams
    else if isSymbolInCooldown st now p.symbol then
      ValidationResult.invalid .symbolCooldown
    else if st.config.maxOpenPositions ≤ st.openPositionsSize then
      ValidationResult.invalid .maxOpenPositionsReached
    else if st.dailyStats.totalPnL ≤ -st.config.maxDailyLoss * st.portfolioValue then
      ValidationResult.invalid .dailyLossLimit
    else if st.config.maxDrawdown ≤ calculateDrawdown st then
      ValidationResult.invalid .maxDrawdownExceeded
    else if st.portfolioValue * st.config.maxPositionSize <
        p.amount.getD 0 * p.price.getD 0 then
      ValidationResult.invalid .positionSizeExceeded
    else if st.config.maxLeverage < p.leverage.getD 1 then
      ValidationResult.invalid .leverageExceeded
    else if calculateRiskRewardRatio p.price p.stopLoss p.takeProfit p.side <
        st.config.minRiskRewardRatio then
      ValidationResult.invalid .riskRewardTooLow
    else
      ValidationResult.valid
        (calculateOptimalPositionSize st p.price p.stopLoss (p.amount.getD 0))
        (calculateRiskRewardRatio p.price p.stopLoss p.takeProfit p.side)
        (calculateDrawdown st)
  (st, result)

/-! Specification-side rendering of `validateTrade` used to state the
fail-fast ordering claim: the ordered list of (violated?, reason) checks of
spec section 4.5, evaluated on the post-rollover state, and the first
violated check's reason returned. -/

/-- Modelled from the spec: the nine-step ordered check list of
`validateTrade` (after the daily rollover), each entry paired with the
`TradingError`/`ValidationError` reason it raises. -/
def specCheckList (st : RMState) (now : ℤ) (p : TradeParams) :
    List (Bool × RejectReason) :=
  [ (requiredMissing p, .missingParams),
    (isSymbolInCooldown st now p.symbol, .symbolCooldown),
    (decide (st.config.maxOpenPositions ≤ st.openPositionsSize), .maxOpenPositionsReached),
    (decide (st.dailyStats.totalPnL ≤ -st.config.maxDailyLoss * st.portfolioValue), .dailyLossLimit),
    (decide (st.config.maxDrawdown ≤ calculateDrawdown st), .maxDrawdownExceeded),
    (decide (st.portfolioValue * st.config.maxPositionSize < p.amount.getD 0 * p.price.getD 0), .positionSizeExceeded),
    (decide (st.config.maxLeverage < p.leverage.getD 1), .leverageExceeded),
    (decide (calculateRiskRewardRatio p.price p.stopLoss p.takeProfit p.side < st.config.minRiskRewardRatio), .riskRewardTooLow) ]

/-- Modelled from the spec: run the rollover, scan the ordered check list
and fail fast with the first violated check's reason; accept when every
check passes. -/
def specValidateTrade (st0 : RMState) (now : ℤ) (currentDate : String)
    (p : TradeParams) : ValidationResult :=
  let st := resetDailyStatsIfNewDay st0 currentDate
  match (specCheckList st now p).find? (fun c => c.1) with
  | some c => ValidationResult.invalid c.2
  | none =>
      ValidationResult.valid
        (calculateOptimalPositionSize st p.price p.stopLoss (p.amount.getD 0))
        (calculateRiskRewardRatio p.price p.stopLoss p.takeProfit p.side)
        (calculateDrawdown st)

/-! ## Signal Scorer (`src/server/signals.js`) -/

/-- Signal direction strings of the scorer (`'BUY' | 'SELL' | 'HOLD'`). -/
inductive Direction
  | BUY
  | SELL
  | HOLD
deriving Repr, DecidableEq

/-- Direction strings of an ML prediction (`'BULLISH' | 'BEARISH'`, any
other value taking neither branch). -/
inductive PredDirection
  | BULLISH
  | BEARISH
  | NEUTRAL
deriving Repr, DecidableEq

/-- Aggregate sentiment direction consumed by `applySentimentConfirmation`. -/
inductive SentimentKind
  | BULLISH
  | BEARISH
  | NEUTRAL
deriving Repr, DecidableEq

/-- The fields of an ML prediction read by the scorer. -/
structure Prediction where
  direction : PredDirection
  confidence : ℚ
deriving Repr, DecidableEq

/-- The `macd` indicator object consumed by `analyzeMacd`. -/
structure MacdValue where
  macd : ℚ
  signal : ℚ
  histogram : ℚ
deriving Repr, DecidableEq

/-- The Bollinger-band object consumed by `analyzeBollingerBands`. -/
structure BollingerValue where
  upper : ℚ
  middle : ℚ
  lower : ℚ
deriving Repr, DecidableEq

/-- The stochastic object consumed by `analyzeStochastic`. -/
structure StochasticValue where
  k : ℚ
  d : ℚ
deriving Repr, DecidableEq

/-- The support/resistance object consumed by `analyzeSupportResistance`. -/
structure SupportResistanceValue where
  support : ℚ
  resistance : ℚ
deriving Repr, DecidableEq

/-- The flat indicator snapshot `generateTimeframeSignal` reads
(`indicators.rsi`, `indicators.macd`, `indicators.sma20`, ...). -/
structure IndicatorsIn where
  rsi : ℚ
  macd : MacdValue
  sma20 : ℚ
  sma50 : ℚ
  bollingerBands : BollingerValue
  stochastic : StochasticValue
  volumeRatio : ℚ
  supportResistance : SupportResistanceValue
deriving Repr, DecidableEq

/-- `SIGNAL_CONFIG.WEIGHTS` of `signals.js`. -/
def WEIGHT_ML_PREDICTION : ℚ := 35/100
def WEIGHT_RSI : ℚ := 15/100
def WEIGHT_MACD : ℚ := 12/100
def WEIGHT_MOVING_AVERAGES : ℚ := 10/100
def WEIGHT_BOLLINGER_BANDS : ℚ := 10/100
def WEIGHT_STOCHASTIC : ℚ := 8/100
def WEIGHT_VOLUME : ℚ := 5/100
def WEIGHT_SUPPORT_RESISTANCE : ℚ := 5/100

/-- `SIGNAL_CONFIG.THRESHOLDS` of `signals.js`. -/
def MIN_SIGNAL_STRENGTH : ℚ := 65
def STRONG_SIGNAL_THRESHOLD : ℚ := 75
def CONSENSUS_THRESHOLD : ℕ := 2
def RSI_OVERSOLD : ℚ := 30
def RSI_OVERBOUGHT : ℚ := 70
def STOCH_OVERSOLD : ℚ := 20
def STOCH_OVERBOUGHT : ℚ := 80
def VOLUME_SURGE : ℚ := 3/2

/-- The mutable `signalComponents` record threaded through the analyzer
functions (the dead initial `strength: 50` field recomputed later is
omitted; `scores` is assembled separately below). -/
structure SignalComponents where
  direction : Direction
  confidence : ℚ
  indicators : List String
  reasons : List String
deriving Repr, DecidableEq

/-- Source `analyzeMlPrediction`: above 60 confidence the prediction
contributes its scaled ML weight, votes the direction (BULLISH ↦ BUY,
BEARISH ↦ SELL, anything else leaves the direction alone) and raises the
component confidence; otherwise no contribution. The reason strings elide
the interpolated percentage. -/
def analyzeMlPrediction (prediction : Prediction) (c : SignalComponents) :
    ℚ × SignalComponents :=
  if 60 < prediction.confidence then
    let score := prediction.confidence / 100 * WEIGHT_ML_PREDICTION * 100
    let c' :=
      match prediction.direction with
      | .BULLISH =>
          { c with direction := .BUY,
                   indicators := c.indicators ++ ["ML_BULLISH"],
                   reasons := c.reasons ++ ["AI predicts increase"] }
      | .BEARISH =>
          { c with direction := .SELL,
                   indicators := c.indicators ++ ["ML_BEARISH"],
                   reasons := c.reasons ++ ["AI predicts decrease"] }
      | .NEUTRAL => c
    (score, { c' with confidence := max c'.confidence prediction.confidence })
  else (0, c)

/-- Source `analyzeRSI`: an extreme RSI votes BUY (oversold) or SELL
(overbought), fixes the direction only when it is still HOLD, and returns
the RSI weight in either extreme branch regardless of the direction already
established. -/
def analyzeRSI (rsi : ℚ) (c : SignalComponents) : ℚ × SignalComponents :=
  if rsi < RSI_OVERSOLD then
    (WEIGHT_RSI * 100,
     { c with direction := if c.direction = .HOLD then .BUY else c.direction,
              indicators := c.indicators ++ ["RSI_OVERSOLD"],
              reasons := c.reasons ++ ["RSI oversold"] })
  else if RSI_OVERBOUGHT < rsi then
    (WEIGHT_RSI * 100,
     { c with direction := if c.direction = .HOLD then .SELL else c.direction,
              indicators := c.indicators ++ ["RSI_OVERBOUGHT"],
              reasons := c.reasons ++ ["RSI overbought"] })
  else (0, c)

/-- Source `analyzeMacd`: contributes only when the MACD stance agrees with
the direction already established. -/
def analyzeMacd (macd : MacdValue) (c : SignalComponents) :
    ℚ × SignalComponents :=
  if 0 < macd.histogram ∧ macd.signal < macd.macd then
    if c.direction = .BUY then
      (WEIGHT_MACD * 100,
       { c with indicators := c.indicators ++ ["MACD_BULLISH"],
                reasons := c.reasons ++ ["MACD bullish crossover"] })
    else (0, c)
  else if macd.histogram < 0 ∧ macd.macd < macd.signal then
    if c.direction = .SELL then
      (WEIGHT_MACD * 100,
       { c with indicators := c.indicators ++ ["MACD_BEARISH"],
                reasons := c.reasons ++ ["MACD bearish crossover"] })
    else (0, c)
  else (0, c)

/-- Source `analyzeMovingAverages`: contributes only when the MA stance
agrees with the direction already established. -/
def analyzeMovingAverages (ind : IndicatorsIn) (currentPrice : ℚ)
    (c : SignalComponents) : ℚ × SignalComponents :=
  if ind.sma20 < currentPrice ∧ ind.sma50 < ind.sma20 then
    if c.direction = .BUY then
      (WEIGHT_MOVING_AVERAGES * 100,
       { c with indicators := c.indicators ++ ["MA_BULLISH"],
                reasons := c.reasons ++ ["Price above moving averages"] })
    else (0, c)
  else if currentPrice < ind.sma20 ∧ ind.sma20 < ind.sma50 then
    if c.direction = .SELL then
      (WEIGHT_MOVING_AVERAGES * 100,
       { c with indicators := c.indicators ++ ["MA_BEARISH"],
                reasons := c.reasons ++ ["Price below moving averages"] })
    else (0, c)
  else (0, c)

/-- Source `analyzeBollingerBands`. -/
def analyzeBollingerBands (bb : BollingerValue) (currentPrice : ℚ)
    (c : SignalComponents) : ℚ × SignalComponents :=
  if currentPrice < bb.lower then
    if c.direction = .BUY then
      (WEIGHT_BOLLINGER_BANDS * 100,
       { c with indicators := c.indicators ++ ["BB_OVERSOLD"],
                reasons := c.reasons ++ ["Price below Bollinger lower band"] })
    else (0, c)
  else if bb.upper < currentPrice then
    if c.direction = .SELL then
      (WEIGHT_BOLLINGER_BANDS * 100,
       { c with indicators := c.indicators ++ ["BB_OVERBOUGHT"],
                reasons := c.reasons ++ ["Price above Bollinger upper band"] })
    else (0, c)
  else (0, c)

/-- Source `analyzeStochastic`. -/
def analyzeStochastic (stoch : StochasticValue) (c : SignalComponents) :
    ℚ × SignalComponents :=
  if stoch.k < STOCH_OVERSOLD ∧ stoch.d < STOCH_OVERSOLD then
    if c.direction = .BUY then
      (WEIGHT_STOCHASTIC * 100,
       { c with indicators := c.indicators ++ ["STOCH_OVERSOLD"],
                reasons := c.reasons ++ ["Stochastic oversold"] })
    else (0, c)
  else if STOCH_OVERBOUGHT < stoch.k ∧ STOCH_OVERBOUGHT < stoch.d then
    if c.direction = .SELL then
      (WEIGHT_STOCHASTIC * 100,
       { c with indicators := c.indicators ++ ["STOCH_OVERBOUGHT"],
                reasons := c.reasons ++ ["Stochastic overbought"] })
    else (0, c)
  else (0, c)

/-- Source `analyzeVolume`: a volume surge contributes its weight with no
direction guard at all. -/
def analyzeVolume (volumeRatio : ℚ) (c : SignalComponents) :
    ℚ × SignalComponents :=
  if VOLUME_SURGE < volumeRatio then
    (WEIGHT_VOLUME * 100,
     { c with indicators := c.indicators ++ ["VOLUME_SURGE"],
              reasons := c.reasons ++ ["Volume surge"] })
  else (0, c)

/-- Source `analyzeSupportResistance`. -/
def analyzeSupportResistance (sr : SupportResistanceValue)
    (currentPrice : ℚ) (c : SignalComponents) : ℚ × SignalComponents :=
  if currentPrice ≤ sr.support * (102/100) then
    if c.direction = .BUY then
      (WEIGHT_SUPPORT_RESISTANCE * 100,
       { c with indicators := c.indicators ++ ["SUPPORT_LEVEL"],
                reasons := c.reasons ++ ["Near support level"] })
    else (0, c)
  else if sr.resistance * (98/100) ≤ currentPrice then
    if c.direction = .SELL then
      (WEIGHT_SUPPORT_RESISTANCE * 100,
       { c with indicators := c.indicators ++ ["RESISTANCE_LEVEL"],
                reasons := c.reasons ++ ["Near resistance level"] })
    else (0, c)
  else (0, c)

/-- The `signalComponents.scores` record (`ml`, `rsi`, `macd`, `ma`, `bb`,
`stoch`, `volume`, `sr`). -/
structure Scores where
  ml : ℚ
  rsi : ℚ
  macd : ℚ
  ma : ℚ
  bb : ℚ
  stoch : ℚ
  volume : ℚ
  sr : ℚ
deriving Repr, DecidableEq

/-- `Object.values(scores).reduce((sum, score) => sum + score, 0)`. -/
def Scores.total (s : Scores) : ℚ :=
  s.ml + s.rsi + s.macd + s.ma + s.bb + s.stoch + s.volume + s.sr

/-- Source `calculateWeightedStrength`. -/
def calculateWeightedStrength (scores : Scores) : ℚ :=
  min 95 (50 + scores.total)

/-- Source `applySentimentConfirmation`. -/
def applySentimentConfirmation (sentiment : SentimentKind)
    (direction : Direction) : ℚ :=
  if sentiment = .BULLISH ∧ direction = .BUY then 5
  else if sentiment = .BEARISH ∧ direction = .SELL then 5
  else 0

/-- The fields of a generated signal used downstream (`id`, timestamps and
the echoed `technicals`/`prediction`/`metadata` blocks are presentation
data and elided). -/
structure Signal where
  timeframe : String
  signal : Direction
  strength : ℚ
  confidence : ℚ
  indicators : List String
  reasons : List String
  scores : Scores
deriving Repr, DecidableEq

/-- Source `generateTimeframeSignal`: `null` when indicators or prediction
are missing, else run the eight analyzers in order over the shared
components record and assemble the signal. -/
def generateTimeframeSignal (timeframe : String)
    (indicators : Option IndicatorsIn) (prediction : Option Prediction)
    (sentiment : SentimentKind) (currentPrice : ℚ) : Option Signal :=
  match indicators, prediction with
  | some ind, some pred =>
    let c0 : SignalComponents := { direction := .HOLD, confidence := 0, indicators := [], reasons := [] }
    let r1 := analyzeMlPrediction pred c0
    let r2 := analyzeRSI ind.rsi r1.2
    let r3 := analyzeMacd ind.macd r2.2
    let r4 := analyzeMovingAverages ind currentPrice r3.2
    let r5 := analyzeBollingerBands ind.bollingerBands currentPrice r4.2
    let r6 := analyzeStochastic ind.stochastic r5.2
    let r7 := analyzeVolume ind.volumeRatio r6.2
    let r8 := analyzeSupportResistance ind.supportResistance currentPrice r7.2
    let scores : Scores :=
      { ml := r1.1, rsi := r2.1, macd := r3.1, ma := r4.1,
        bb := r5.1, stoch := r6.1, volume := r7.1, sr := r8.1 }
    let finalStrength := calculateWeightedStrength scores
    let sentimentAdjustment := applySentimentConfirmation sentiment r8.2.direction
    some
      { timeframe := timeframe
        signal := r8.2.direction
        strength := min 95 (finalStrength + sentimentAdjustment)
        confidence := r8.2.confidence
        indicators := r8.2.indicators
        reasons := r8.2.reasons
        scores := scores }
  | _, _ => none

/-- The JS sort key `strength * 0.7 + confidence * 0.3`. -/
def signalScore (s : Signal) : ℚ :=
  s.strength * (7/10) + s.confidence * (3/10)

/-- Source `filterAndRankSignals`: drop signals below strength 65, below
confidence 50 or with fewer than 2 reasons, then sort by descending
combined score. -/
def filterAndRankSignals (signals : List Signal) : List Signal :=
  let filteredSignals := signals.filter fun s =>
    decide (MIN_SIGNAL_STRENGTH ≤ s.strength ∧ 50 ≤ s.confidence ∧
      2 ≤ s.reasons.length)
  filteredSignals.mergeSort fun a b => decide (signalScore b ≤ signalScore a)

/-- The per-timeframe loop body of `generateTradingSignals`: collect the
non-null signals whose strength reaches `MIN_SIGNAL_STRENGTH`, then filter
and rank. The result is the emitted signal list stored in
`botState.signals`. -/
def emittedSignals (generated : List (Option Signal)) : List Signal :=
  filterAndRankSignals
    ((generated.filterMap id).filter fun s =>
      decide (MIN_SIGNAL_STRENGTH ≤ s.strength))

/-! ## Consensus Aggregator (`analyzeSignalConsensus` and the execution
gate of `analyzeAndExecuteSignals`) -/

/-- One side of the consensus record. -/
structure ConsensusSide where
  count : ℕ
  avgStrength : ℚ
  avgConfidence : ℚ
  signals : List Signal
deriving Repr, DecidableEq

/-- The record returned by `analyzeSignalConsensus`. -/
structure Consensus where
  buy : ConsensusSide
  sell : ConsensusSide
deriving Repr, DecidableEq

/-- Sum of strengths (`reduce((sum, s) => sum + s.strength, 0)`). -/
def sumStrength (l : List Signal) : ℚ := (l.map Signal.strength).sum

/-- Sum of confidences. -/
def sumConfidence (l : List Signal) : ℚ := (l.map Signal.confidence).sum

/-- Source `analyzeSignalConsensus`: per direction, the signals strictly
above the strong threshold, their count and their average strength and
confidence (zero averages for an empty set). -/
def analyzeSignalConsensus (signals : List Signal) : Consensus :=
  let buySignals := signals.filter fun s =>
    decide (s.signal = .BUY ∧ STRONG_SIGNAL_THRESHOLD < s.strength)
  let sellSignals := signals.filter fun s =>
    decide (s.signal = .SELL ∧ STRONG_SIGNAL_THRESHOLD < s.strength)
  { buy :=
      { count := buySignals.length
        avgStrength :=
          if 0 < buySignals.length then sumStrength buySignals / buySignals.length else 0
        avgConfidence :=
          if 0 < buySignals.length then sumConfidence buySignals / buySignals.length else 0
        signals := buySignals }
    sell :=
      { count := sellSignals.length
        avgStrength :=
          if 0 < sellSignals.length then sumStrength sellSignals / sellSignals.length else 0
        avgConfidence :=
          if 0 < sellSignals.length then sumConfidence sellSignals / sellSignals.length else 0
        signals := sellSignals } }

/-- The buy-side execution gate of `analyzeAndExecuteSignals`
(`count >= CONSENSUS_THRESHOLD && avgStrength > STRONG_SIGNAL_THRESHOLD`). -/
def buyEligible (c : Consensus) : Prop :=
  CONSENSUS_THRESHOLD ≤ c.buy.count ∧ STRONG_SIGNAL_THRESHOLD < c.buy.avgStrength

/-- The sell-side execution gate of `analyzeAndExecuteSignals`. -/
def sellEligible (c : Consensus) : Prop :=
  CONSENSUS_THRESHOLD ≤ c.sell.count ∧ STRONG_SIGNAL_THRESHOLD < c.sell.avgStrength

/-- Modelled from the spec: the agreeing subset for a direction is the set
of signals with that direction and strength strictly above the strong
threshold. -/
def specAgreeing (signals : List Signal) (d : Direction) : List Signal :=
  signals.filter fun s => decide (s.signal = d ∧ STRONG_SIGNAL_THRESHOLD < s.strength)

/-- Modelled from the spec: a direction is eligible for execution iff the
agreeing count reaches the consensus threshold and the average strength of
the agreeing subset strictly exceeds the strong threshold. -/
def specEligible (signals : List Signal) (d : Direction) : Prop :=
  CONSENSUS_THRESHOLD ≤ (specAgreeing signals d).length ∧
    STRONG_SIGNAL_THRESHOLD <
      sumStrength (specAgreeing signals d) / (specAgreeing signals d).length

/-! ## Position monitor (`signals.js`: `monitorSinglePosition`,
`shouldUpdateTrailingStop`, `updateTrailingStop`, trigger predicates) -/

/-- The fields of a monitored position read by the monitor. `stopLoss`,
`takeProfit` and `trailingStopDistance` use `0` for the JS falsy absent
value; `trailingStop` is the enabling flag. -/
structure MonPosition where
  type : Direction
  stopLoss : ℚ
  takeProfit : ℚ
  trailingStop : Bool
  trailingStopDistance : ℚ
deriving Repr, DecidableEq

/-- Source `shouldUpdateTrailingStop`: false when the trailing stop or its
distance is falsy; for a BUY position the candidate stop
`currentPrice - distance` must strictly beat the current stop, for a SELL
position `currentPrice + distance` must be strictly below it. -/
def shouldUpdateTrailingStop (pos : MonPosition) (currentPrice : ℚ) : Bool :=
  if ¬(pos.trailingStop = true ∧ pos.trailingStopDistance ≠ 0) then false
  else if pos.type = .BUY then
    decide (pos.stopLoss < currentPrice - pos.trailingStopDistance)
  else
    decide (currentPrice + pos.trailingStopDistance < pos.stopLoss)

/-- Source `updateTrailingStop`: ratchet the stop to the candidate level. -/
def updateTrailingStop (pos : MonPosition) (currentPrice : ℚ) : MonPosition :=
  if pos.type = .BUY then
    { pos with stopLoss := currentPrice - pos.trailingStopDistance }
  else
    { pos with stopLoss := currentPrice + pos.trailingStopDistance }

/-- Source `shouldTriggerStopLoss`. -/
def shouldTriggerStopLoss (pos : MonPosition) (currentPrice : ℚ) : Bool :=
  if pos.stopLoss = 0 then false
  else if pos.type = .BUY then decide (currentPrice ≤ pos.stopLoss)
  else decide (pos.stopLoss ≤ currentPrice)

/-- Source `shouldTriggerTakeProfit`. -/
def shouldTriggerTakeProfit (pos : MonPosition) (currentPrice : ℚ) : Bool :=
  if pos.takeProfit = 0 then false
  else if pos.type = .BUY then decide (pos.takeProfit ≤ currentPrice)
  else decide (currentPrice ≤ pos.takeProfit)

/-- Source `monitorSinglePosition`, restricted to its effect on the
position record: the stop-loss/take-profit exit paths hand the position to
the trade executor without touching the stop level (modelled as the
identity here), and only the guarded trailing-stop branch rewrites
`stopLoss`. The preliminary external risk check can only trigger another
such exit and is modelled the same way. -/
def monitorSinglePosition (pos : MonPosition) (currentPrice : ℚ) : MonPosition :=
  if pos.stopLoss ≠ 0 ∧ shouldTriggerStopLoss pos currentPrice = true then pos
  else if pos.takeProfit ≠ 0 ∧ shouldTriggerTakeProfit pos currentPrice = true then pos
  else if pos.trailingStop = true ∧ shouldUpdateTrailingStop pos currentPrice = true then
    updateTrailingStop pos currentPrice
  else pos

/-- A whole sequence of price ticks processed by the monitor. -/
def monitorTicks (pos : MonPosition) (ticks : List ℚ) : MonPosition :=
  ticks.foldl monitorSinglePosition pos

/-! ## Trailing stop of `updatePositionsPnL` (trading module) -/

/-- The `position.trailingStop` record set at position opening. -/
structure TrailingStopState where
  percentage : ℚ
  highestPrice : ℚ
  triggerPrice : ℚ
deriving Repr, DecidableEq

/-- The record created when a trade opens with a trailing stop
(`{ percentage, highestPrice: trade.price, triggerPrice: trade.price * (1 - percentage) }`). -/
def initTrailingStop (tradePrice percentage : ℚ) : TrailingStopState :=
  { percentage := percentage
    highestPrice := tradePrice
    triggerPrice := tradePrice * (1 - percentage) }

/-- The trailing-stop portion of one `updatePositionsPnL` pass over a
position: on a new high, record it and re-derive the trigger price; the
trigger comparison that follows only fires a market exit and does not
change the record. -/
def trailingStopTick (ts : TrailingStopState) (currentPrice : ℚ) :
    TrailingStopState :=
  if ts.highestPrice < currentPrice then
    { ts with highestPrice := currentPrice
              triggerPrice := currentPrice * (1 - ts.percentage) }
  else ts

/-- A sequence of monitoring passes. -/
def trailingStopTicks (ts : TrailingStopState) (ticks : List ℚ) :
    TrailingStopState :=
  ticks.foldl trailingStopTick ts

/-! ## Indicator Library (trading module: `TECHNICAL_INDICATORS`,
`calculateRSI`, `calculateEMA`, `calculateMACD`, `calculateStochastic`,
`calculateIndicators`) -/

/-- `TECHNICAL_INDICATORS` constants. -/
def RSI_PERIOD : ℕ := 14
def MACD_FAST : ℕ := 12
def MACD_SLOW : ℕ := 26
def MACD_SIGNAL : ℕ := 9
def STOCH_PERIOD : ℕ := 14
def STOCH_SMOOTH : ℕ := 3

/-- One OHLCV candle. `openPrice` renders the JS `open` field (a reserved
word in Lean). -/
structure Candle where
  timestamp : ℤ
  openPrice : ℚ
  high : ℚ
  low : ℚ
  close : ℚ
  volume : ℚ
deriving Repr, DecidableEq

/-- The fields of the `calculateRSI` result the claims are about; the
derived `trend`/`overbought`/`oversold`/`divergence` presentation fields
are elided. -/
structure RSIResult where
  current : ℚ
  previous : ℚ
deriving Repr, DecidableEq

/-- The Wilder-smoothing loop of `calculateRSI`: one RSI value per
gain/loss sample after the seed window. -/
def wilderRsis (period : ℚ) : List (ℚ × ℚ) → ℚ → ℚ → List ℚ
  | [], _, _ => []
  | (g, l) :: rest, avgGain, avgLoss =>
    let ag := (avgGain * (period - 1) + g) / period
    let al := (avgLoss * (period - 1) + l) / period
    let v := if al = 0 then 100 else 100 - 100 / (1 + ag / al)
    v :: wilderRsis period rest ag al

/-- Source `calculateRSI`: neutral `50/50` below `period + 1` closes, else
Wilder smoothing over the gain/loss series. The JS `undefined` current
value for a window of exactly `period + 1` closes (empty loop) is rendered
as `0`; `previous` falls back to `current` through the JS `||` on a falsy
entry. -/
def calculateRSI (closes : List ℚ) (period : ℕ) : RSIResult :=
  if closes.length < period + 1 then { current := 50, previous := 50 }
  else
    let changes := List.zipWith (fun next prev => next - prev) closes.tail closes
    let gains := changes.map fun c => if 0 < c then c else 0
    let losses := changes.map fun c => if c < 0 then |c| else 0
    let avgGain := (gains.take period).sum / (period : ℚ)
    let avgLoss := (losses.take period).sum / (period : ℚ)
    let rsiValues :=
      wilderRsis (period : ℚ) ((gains.drop period).zip (losses.drop period)) avgGain avgLoss
    let current := rsiValues.getLast?.getD 0
    let previous :=
      match rsiValues.reverse with
      | _ :: p :: _ => if p ≠ 0 then p else current
      | _ => current
    { current := current, previous := previous }

/-- Source `calculateEMA`: last element for windows shorter than the
period (the JS `undefined`-on-empty case rendered `0`), else the standard
smoothed fold over the tail after an SMA seed. -/
def calculateEMA (data : List ℚ) (period : ℕ) : ℚ :=
  if data.length < period then (data.getLast?).getD 0
  else
    let multiplier : ℚ := 2 / ((period : ℚ) + 1)
    let ema0 := (data.take period).sum / (period : ℚ)
    (data.drop period).foldl (fun ema x => (x - ema) * multiplier + ema) ema0

/-- The fields of the `calculateMACD` result the claims are about
(`previousHistogram`, `trend` and the crossover flags are elided). -/
structure MACDResult where
  macd : ℚ
  signal : ℚ
  histogram : ℚ
deriving Repr, DecidableEq

/-- Source `calculateMACD`: all-zero neutral value below `slowPeriod`
closes, else the MACD line over growing prefixes, its EMA signal and the
histogram difference. -/
def calculateMACD (closes : List ℚ) (fastPeriod slowPeriod signalPeriod : ℕ) :
    MACDResult :=
  if closes.length < slowPeriod then { macd := 0, signal := 0, histogram := 0 }
  else
    let macdLine := ((List.range closes.length).drop (slowPeriod - 1)).map fun i =>
      calculateEMA (closes.take (i + 1)) fastPeriod -
        calculateEMA (closes.take (i + 1)) slowPeriod
    let signal := calculateEMA macdLine signalPeriod
    let macd := (macdLine.getLast?).getD 0
    { macd := macd, signal := signal, histogram := macd - signal }

/-- The fields of the `calculateStochastic` result the claims are about. -/
structure StochResult where
  k : ℚ
  d : ℚ
deriving Repr, DecidableEq

/-- `Math.max(...list)` over a nonempty list (`0` for the empty list,
which the guarded callers never produce). -/
def listMax : List ℚ → ℚ
  | [] => 0
  | h :: t => t.foldl max h

/-- `Math.min(...list)` over a nonempty list. -/
def listMin : List ℚ → ℚ
  | [] => 0
  | h :: t => t.foldl min h

/-- Source `calculateStochastic`: neutral `50/50` below `period` closes,
else raw %K per window (the JS `isNaN` guard maps a zero range to `50`;
the non-representable `±Infinity` of a zero range with an out-of-range
close cannot arise from well-formed candles) and %D as the 3-SMA, with the
JS `|| k` fallback on a falsy last %D. -/
def calculateStochastic (highs lows closes : List ℚ) (period : ℕ) :
    StochResult :=
  if closes.length < period then { k := 50, d := 50 }
  else
    let kValues := ((List.range closes.length).drop (period - 1)).map fun i =>
      let periodHighs := (highs.take (i + 1)).drop (i + 1 - period)
      let periodLows := (lows.take (i + 1)).drop (i + 1 - period)
      let currentClose := closes.getD i 0
      let highestHigh := listMax periodHighs
      let lowestLow := listMin periodLows
      if highestHigh - lowestLow = 0 then 50
      else (currentClose - lowestLow) / (highestHigh - lowestLow) * 100
    let dValues := ((List.range kValues.length).drop (STOCH_SMOOTH - 1)).map fun i =>
      ((kValues.take (i + 1)).drop (i + 1 - STOCH_SMOOTH)).sum / (STOCH_SMOOTH : ℚ)
    let k := kValues.getLast?.getD 0
    let d :=
      match dValues.getLast? with
      | some v => if v ≠ 0 then v else k
      | none => k
    { k := k, d := d }

/-- The momentum part of the `calculateIndicators` result; the moving
averages, volatility, volume, support/resistance, trend, market-structure
and pattern blocks are derived presentation data not consumed by any
claim. -/
structure CalcIndicators where
  rsi : RSIResult
  macd : MACDResult
  stochastic : StochResult
deriving Repr, DecidableEq

/-- Source `calculateIndicators`: windows of fewer than 20 candles throw a
`ValidationError` (rendered `Except.error`, propagated to the caller by
the re-`throw` in the catch-block); otherwise the indicator snapshot. -/
def calculateIndicators (data : List Candle) : Except String CalcIndicators :=
  if data.length < 20 then .error "Insufficient data for technical analysis"
  else
    let closes := data.map Candle.close
    let highs := data.map Candle.high
    let lows := data.map Candle.low
    .ok
      { rsi := calculateRSI closes RSI_PERIOD
        macd := calculateMACD closes MACD_FAST MACD_SLOW MACD_SIGNAL
        stochastic := calculateStochastic highs lows closes STOCH_PERIOD }

/-! ## Theorems -/

/-- Rejections have `isValid = false`. -/
theorem isValid_invalid (r : RejectReason) :
    (ValidationResult.invalid r).isValid = false := rfl

/-- Acceptances have `isValid = true`. -/
theorem isValid_valid (a b c : ℚ) :
    (ValidationResult.valid a b c).isValid = true := rfl

/-- The daily rollover never changes the configuration. -/
theorem resetDailyStats_config (st : RMState) (currentDate : String) :
    (resetDailyStatsIfNewDay st currentDate).config = st.config := by
  unfold resetDailyStatsIfNewDay
  split_ifs <;> rfl

/-- On a day with no rollover the daily rollover is the identity. -/
theorem resetDailyStats_sameDay (st : RMState) (currentDate : String)
    (hday : st.dailyStats.lastResetDate = currentDate) :
    resetDailyStatsIfNewDay st currentDate = st := by
  unfold resetDailyStatsIfNewDay
  simp [hday]

/-- The source `validateTrade` agrees with the fail-fast scan of the
spec-ordered check list on every input. -/
theorem validateTrade_eq_spec (st0 : RMState) (now : ℤ) (currentDate : String)
    (p : TradeParams) :
    (validateTrade st0 now currentDate p).2 = specValidateTrade st0 now currentDate p := by
  simp only [validateTrade, specValidateTrade, specCheckList]
  by_cases h1 : requiredMissing p = true
  · simp [List.find?, h1]
  · have e1 := Bool.eq_false_iff.mpr h1
    by_cases h2 : isSymbolInCooldown (resetDailyStatsIfNewDay st0 currentDate) now p.symbol = true
    · simp [List.find?, e1, h2]
    · have e2 := Bool.eq_false_iff.mpr h2
      split_ifs with h3 h4 h5 h6 h7 h8
      · simp only [List.find?, e1, e2, decide_eq_true h3]
      · simp only [List.find?, e1, e2, decide_eq_false h3, decide_eq_true h4]
      · simp only [List.find?, e1, e2, decide_eq_false h3, decide_eq_false h4,
          decide_eq_true h5]
      · simp only [List.find?, e1, e2, decide_eq_false h3, decide_eq_false h4,
          decide_eq_false h5, decide_eq_true h6]
      · simp only [List.find?, e1, e2, decide_eq_false h3, decide_eq_false h4,
          decide_eq_false h5, decide_eq_false h6, decide_eq_true h7]
      · simp only [List.find?, e1, e2, decide_eq_false h3, decide_eq_false h4,
          decide_eq_false h5, decide_eq_false h6, decide_eq_false h7, decide_eq_true h8]
      · simp only [List.find?, e1, e2, decide_eq_false h3, decide_eq_false h4,
          decide_eq_false h5, decide_eq_false h6, decide_eq_false h7, decide_eq_false h8]

/-- A trade whose risk/reward ratio is below the minimum is never
accepted, whatever earlier check fires first. -/
theorem validateTrade_rejects_lowRR (st0 : RMState) (now : ℤ)
    (currentDate : String) (p : TradeParams)
    (h : calculateRiskRewardRatio p.price p.stopLoss p.takeProfit p.side <
      st0.config.minRiskRewardRatio) :
    ((validateTrade st0 now currentDate p).2).isValid = false := by
  rw [validateTrade_eq_spec]
  unfold specValidateTrade
  cases hf : (specCheckList (resetDailyStatsIfNewDay st0 currentDate) now p).find? (fun c => c.1) with
  | some c => simp [hf, ValidationResult.isValid]
  | none =>
    exfalso
    have hmem : ((decide (calculateRiskRewardRatio p.price p.stopLoss p.takeProfit p.side <
        (resetDailyStatsIfNewDay st0 currentDate).config.minRiskRewardRatio),
        RejectReason.riskRewardTooLow) : Bool × RejectReason) ∈
        specCheckList (resetDailyStatsIfNewDay st0 currentDate) now p := by
      simp [specCheckList]
    have hnone := List.find?_eq_none.mp hf _ hmem
    rw [resetDailyStats_config] at hnone
    simp [decide_eq_true h] at hnone

/-- C1: on a day with no rollover, a risk state that has already lost the
configured daily budget (`dailyPnL ≤ -maxDailyLoss * portfolioValue`)
makes `validateTrade` return a rejection, whatever the trade parameters
are. -/
theorem c1_daily_loss_limit_rejects (st : RMState) (now : ℤ)
    (currentDate : String) (p : TradeParams)
    (hday : st.dailyStats.lastResetDate = currentDate)
    (hloss : st.dailyStats.totalPnL ≤ -st.config.maxDailyLoss * st.portfolioValue) :
    ((validateTrade st now currentDate p).2).isValid = false := by
  rw [validateTrade_eq_spec]
  unfold specValidateTrade
  rw [resetDailyStats_sameDay st currentDate hday]
  cases hf : (specCheckList st now p).find? (fun c => c.1) with
  | some c => simp [hf, ValidationResult.isValid]
  | none =>
    exfalso
    have hmem : ((decide (st.dailyStats.totalPnL ≤
        -st.config.maxDailyLoss * st.portfolioValue), RejectReason.dailyLossLimit) :
        Bool × RejectReason) ∈ specCheckList st now p := by
      simp [specCheckList]
    have hnone := List.find?_eq_none.mp hf _ hmem
    rw [neg_mul] at hloss
    simp at hnone
    exact absurd hloss (not_le.mpr hnone)

/-- A risk state that has lost 300 of a 10000 portfolio (limit 200) on the
current day. -/
def stW1 : RMState :=
  { config := {}
    dailyStats := { totalPnL := -300, tradesCount := 3, winningTrades := 0,
                    losingTrades := 3, lastResetDate := "Tue Jan 07 2025" }
    openPositionsSize := 0
    lastTradeTime := []
    portfolioValue := 10000
    initialPortfolioValue := 10000
    peakPortfolioValue := 10000 }

/-- An otherwise perfectly valid trade request. -/
def pW1 : TradeParams :=
  { symbol := "BTC/USDT", side := "buy", amount := some 1, price := some 100,
    leverage := none, stopLoss := some 95, takeProfit := some 110 }

/-- Witness for C1: the loss-saturated state rejects a trade that passes
every other check. -/
theorem c1_daily_loss_limit_rejects_witness :
    ((validateTrade stW1 0 "Tue Jan 07 2025" pW1).2).isValid = false :=
  c1_daily_loss_limit_rejects stW1 0 "Tue Jan 07 2025" pW1 rfl (by norm_num [stW1])

/-- C2: on every input, `validateTrade` runs its checks in the fixed
source order (daily rollover first, then required fields, symbol cooldown,
max open positions, daily loss limit, max drawdown, position size,
leverage, risk/reward ratio), stops at the first violated check and
returns a structured rejection naming exactly that check's reason — the
fail-fast scan `specValidateTrade` of the ordered check list — instead of
letting the internal throw escape to the caller. -/
theorem c2_validateTrade_fail_fast_ordered (st0 : RMState) (now : ℤ)
    (currentDate : String) (p : TradeParams) :
    (validateTrade st0 now currentDate p).2 = specValidateTrade st0 now currentDate p :=
  validateTrade_eq_spec st0 now currentDate p

/-- Literal string inequalities used to evaluate the concrete scenarios. -/
theorem btcusdt_ne_empty : ("BTC/USDT" = "") = False := by simp

/-- The side string of the scenarios is nonempty. -/
theorem buy_ne_empty : ("buy" = "") = False := by simp

/-- Lower-casing the side string of the scenarios. -/
theorem jsLower_buy : jsLower "buy" = "buy" := by decide

/-- A fresh 10000 portfolio at its peak with no open positions. -/
def stC9 : RMState :=
  { config := {}
    dailyStats := { totalPnL := 0, tradesCount := 0, winningTrades := 0,
                    losingTrades := 0, lastResetDate := "Mon Jan 06 2025" }
    openPositionsSize := 0
    lastTradeTime := []
    portfolioValue := 10000
    initialPortfolioValue := 10000
    peakPortfolioValue := 10000 }

/-- A trade with position value 15 × 100 = 1500 (above the 10% cap of
10000) and a healthy 2.0 risk/reward ratio. -/
def pC9big : TradeParams :=
  { symbol := "BTC/USDT", side := "buy", amount := some 15, price := some 100,
    leverage := none, stopLoss := some 95, takeProfit := some 110 }

/-- The identical trade scaled down to position value 9 × 100 = 900. -/
def pC9small : TradeParams := { pC9big with amount := some 9 }

/-- C9: with `portfolioValue = 10000` and `maxPositionSize = 0.1`, a trade
of position value 1500 is rejected with the position-size reason, and the
otherwise identical trade of position value 900 passes validation. -/
theorem c9_position_size_scenario :
    (validateTrade stC9 0 "Mon Jan 06 2025" pC9big).2 =
      ValidationResult.invalid .positionSizeExceeded ∧
    ((validateTrade stC9 0 "Mon Jan 06 2025" pC9small).2).isValid = true := by
  constructor
  · norm_num [validateTrade, resetDailyStatsIfNewDay, requiredMissing, truthyQ,
      isSymbolInCooldown, calculateDrawdown, stC9, pC9big,
      btcusdt_ne_empty, buy_ne_empty, jsLower_buy]
  · norm_num [validateTrade, resetDailyStatsIfNewDay, requiredMissing, truthyQ,
      isSymbolInCooldown, calculateDrawdown, calculateRiskRewardRatio,
      calculateOptimalPositionSize, stC9, pC9small, pC9big,
      btcusdt_ne_empty, buy_ne_empty, jsLower_buy, ValidationResult.isValid]

/-- The trade risk computed by `calculateRiskRewardRatio` before the
positivity test (long: entry − stop, short: stop − entry). -/
def tradeRisk (p : TradeParams) : ℚ :=
  if jsLower p.side = "buy" then p.price.getD 0 - p.stopLoss.getD 0
  else p.stopLoss.getD 0 - p.price.getD 0

/-- C10: a trade without a stop-loss, without a take-profit, or with a
non-positive computed risk gets risk/reward ratio 0, so any positive
`minRiskRewardRatio` makes `validateTrade` reject it — no trade passes
validation without both protective levels. -/
theorem c10_no_stop_or_target_rejected (st : RMState) (now : ℤ)
    (currentDate : String) (p : TradeParams)
    (h : truthyQ p.stopLoss = false ∨ truthyQ p.takeProfit = false ∨ tradeRisk p ≤ 0)
    (hmin : 0 < st.config.minRiskRewardRatio) :
    calculateRiskRewardRatio p.price p.stopLoss p.takeProfit p.side = 0 ∧
    ((validateTrade st now currentDate p).2).isValid = false := by
  have hrr : calculateRiskRewardRatio p.price p.stopLoss p.takeProfit p.side = 0 := by
    unfold calculateRiskRewardRatio
    rcases h with h | h | h
    · simp [h]
    · simp [h]
    · simp only [tradeRisk] at h
      split_ifs with hg
      · simp [not_lt.mpr h]
      · rfl
  refine ⟨hrr, validateTrade_rejects_lowRR st now currentDate p ?_⟩
  rw [hrr]
  exact hmin

/-- A trade request with no stop-loss at all. -/
def pW10 : TradeParams :=
  { symbol := "BTC/USDT", side := "buy", amount := some 1, price := some 100,
    leverage := none, stopLoss := none, takeProfit := some 110 }

/-- Witness for C10: the stop-less trade is rejected by the fresh risk
state. -/
theorem c10_no_stop_or_target_rejected_witness :
    calculateRiskRewardRatio pW10.price pW10.stopLoss pW10.takeProfit pW10.side = 0 ∧
    ((validateTrade stC9 0 "Mon Jan 06 2025" pW10).2).isValid = false :=
  c10_no_stop_or_target_rejected stC9 0 "Mon Jan 06 2025" pW10
    (Or.inl rfl) (by norm_num [stC9])

/-! Per-analyzer lemmas: how each factor treats the shared components
record (direction and confidence preservation, score sign and the
direction-agreement guards). -/

/-- ML analysis fixes the direction by its vote when confident, else
leaves it. -/
theorem analyzeMl_direction (pred : Prediction) (c : SignalComponents) :
    (analyzeMlPrediction pred c).2.direction =
      if 60 < pred.confidence ∧ pred.direction = .BULLISH then .BUY
      else if 60 < pred.confidence ∧ pred.direction = .BEARISH then .SELL
      else c.direction := by
  unfold analyzeMlPrediction
  by_cases h : 60 < pred.confidence
  · cases hd : pred.direction <;> simp [h, hd]
  · simp [h]

/-- ML analysis raises the confidence to the prediction's when confident. -/
theorem analyzeMl_confidence (pred : Prediction) (c : SignalComponents) :
    (analyzeMlPrediction pred c).2.confidence =
      if 60 < pred.confidence then max c.confidence pred.confidence else c.confidence := by
  unfold analyzeMlPrediction
  by_cases h : 60 < pred.confidence
  · cases hd : pred.direction <;> simp [h, hd]
  · simp [h]

/-- The ML score is nonnegative for a nonnegative prediction confidence. -/
theorem analyzeMl_score_nonneg (pred : Prediction) (c : SignalComponents)
    (h : 0 ≤ pred.confidence) : 0 ≤ (analyzeMlPrediction pred c).1 := by
  unfold analyzeMlPrediction
  split_ifs
  · show (0:ℚ) ≤ pred.confidence / 100 * WEIGHT_ML_PREDICTION * 100
    have h1 : (0:ℚ) ≤ pred.confidence / 100 := by positivity
    have h2 : (0:ℚ) ≤ WEIGHT_ML_PREDICTION := by norm_num [WEIGHT_ML_PREDICTION]
    nlinarith
  · exact le_refl 0

/-- RSI votes only fill a HOLD direction; an established direction is kept. -/
theorem analyzeRSI_direction (rsi : ℚ) (c : SignalComponents) :
    (analyzeRSI rsi c).2.direction =
      if rsi < RSI_OVERSOLD then (if c.direction = .HOLD then .BUY else c.direction)
      else if RSI_OVERBOUGHT < rsi then (if c.direction = .HOLD then .SELL else c.direction)
      else c.direction := by
  unfold analyzeRSI
  split_ifs <;> rfl

/-- RSI analysis never changes the confidence. -/
theorem analyzeRSI_confidence (rsi : ℚ) (c : SignalComponents) :
    (analyzeRSI rsi c).2.confidence = c.confidence := by
  unfold analyzeRSI
  split_ifs <;> rfl

/-- The RSI score is its full weight whenever RSI is extreme — with no
direction-agreement guard at all. -/
theorem analyzeRSI_score (rsi : ℚ) (c : SignalComponents) :
    (analyzeRSI rsi c).1 =
      if rsi < RSI_OVERSOLD ∨ RSI_OVERBOUGHT < rsi then WEIGHT_RSI * 100 else 0 := by
  unfold analyzeRSI
  by_cases h1 : rsi < RSI_OVERSOLD
  · simp [h1]
  · by_cases h2 : RSI_OVERBOUGHT < rsi
    · simp [h1, h2]
    · simp [h1, h2]

/-- The RSI score is nonnegative. -/
theorem analyzeRSI_score_nonneg (rsi : ℚ) (c : SignalComponents) :
    0 ≤ (analyzeRSI rsi c).1 := by
  unfold analyzeRSI
  split_ifs <;> norm_num [WEIGHT_RSI]

/-- MACD analysis never changes the direction. -/
theorem analyzeMacd_direction (m : MacdValue) (c : SignalComponents) :
    (analyzeMacd m c).2.direction = c.direction := by
  unfold analyzeMacd
  split_ifs <;> rfl

/-- MACD analysis never changes the confidence. -/
theorem analyzeMacd_confidence (m : MacdValue) (c : SignalComponents) :
    (analyzeMacd m c).2.confidence = c.confidence := by
  unfold analyzeMacd
  split_ifs <;> rfl

/-- The MACD score is nonnegative. -/
theorem analyzeMacd_score_nonneg (m : MacdValue) (c : SignalComponents) :
    0 ≤ (analyzeMacd m c).1 := by
  unfold analyzeMacd
  split_ifs <;> norm_num [WEIGHT_MACD]

/-- A nonzero MACD contribution means its stance agrees with the direction
already established. -/
theorem analyzeMacd_score_agrees (m : MacdValue) (c : SignalComponents)
    (h : (analyzeMacd m c).1 ≠ 0) :
    (c.direction = .BUY ∧ 0 < m.histogram ∧ m.signal < m.macd) ∨
    (c.direction = .SELL ∧ m.histogram < 0 ∧ m.macd < m.signal) := by
  unfold analyzeMacd at h
  split_ifs at h with h1 h2 h3 h4
  · exact Or.inl ⟨h2, h1⟩
  · exact absurd rfl h
  · exact Or.inr ⟨h4, h3⟩
  · exact absurd rfl h
  · exact absurd rfl h

/-- MA analysis never changes the direction. -/
theorem analyzeMA_direction (ind : IndicatorsIn) (price : ℚ) (c : SignalComponents) :
    (analyzeMovingAverages ind price c).2.direction = c.direction := by
  unfold analyzeMovingAverages
  split_ifs <;> rfl

/-- MA analysis never changes the confidence. -/
theorem analyzeMA_confidence (ind : IndicatorsIn) (price : ℚ) (c : SignalComponents) :
    (analyzeMovingAverages ind price c).2.confidence = c.confidence := by
  unfold analyzeMovingAverages
  split_ifs <;> rfl

/-- The MA score is nonnegative. -/
theorem analyzeMA_score_nonneg (ind : IndicatorsIn) (price : ℚ) (c : SignalComponents) :
    0 ≤ (analyzeMovingAverages ind price c).1 := by
  unfold analyzeMovingAverages
  split_ifs <;> norm_num [WEIGHT_MOVING_AVERAGES]

/-- A nonzero MA contribution means its stance agrees with the direction
already established. -/
theorem analyzeMA_score_agrees (ind : IndicatorsIn) (price : ℚ) (c : SignalComponents)
    (h : (analyzeMovingAverages ind price c).1 ≠ 0) :
    (c.direction = .BUY ∧ ind.sma20 < price ∧ ind.sma50 < ind.sma20) ∨
    (c.direction = .SELL ∧ price < ind.sma20 ∧ ind.sma20 < ind.sma50) := by
  unfold analyzeMovingAverages at h
  split_ifs at h with h1 h2 h3 h4
  · exact Or.inl ⟨h2, h1⟩
  · exact absurd rfl h
  · exact Or.inr ⟨h4, h3⟩
  · exact absurd rfl h
  · exact absurd rfl h

/-- Bollinger analysis never changes the direction. -/
theorem analyzeBB_direction (bb : BollingerValue) (price : ℚ) (c : SignalComponents) :
    (analyzeBollingerBands bb price c).2.direction = c.direction := by
  unfold analyzeBollingerBands
  split_ifs <;> rfl

/-- Bollinger analysis never changes the confidence. -/
theorem analyzeBB_confidence (bb : BollingerValue) (price : ℚ) (c : SignalComponents) :
    (analyzeBollingerBands bb price c).2.confidence = c.confidence := by
  unfold analyzeBollingerBands
  split_ifs <;> rfl

/-- The Bollinger score is nonnegative. -/
theorem analyzeBB_score_nonneg (bb : BollingerValue) (price : ℚ) (c : SignalComponents) :
    0 ≤ (analyzeBollingerBands bb price c).1 := by
  unfold analyzeBollingerBands
  split_ifs <;> norm_num [WEIGHT_BOLLINGER_BANDS]

/-- A nonzero Bollinger contribution means its stance agrees with the
direction already established. -/
theorem analyzeBB_score_agrees (bb : BollingerValue) (price : ℚ) (c : SignalComponents)
    (h : (analyzeBollingerBands bb price c).1 ≠ 0) :
    (c.direction = .BUY ∧ price < bb.lower) ∨
    (c.direction = .SELL ∧ bb.upper < price) := by
  unfold analyzeBollingerBands at h
  split_ifs at h with h1 h2 h3 h4
  · exact Or.inl ⟨h2, h1⟩
  · exact absurd rfl h
  · exact Or.inr ⟨h4, h3⟩
  · exact absurd rfl h
  · exact absurd rfl h

/-- Stochastic analysis never changes the direction. -/
theorem analyzeStoch_direction (st : StochasticValue) (c : SignalComponents) :
    (analyzeStochastic st c).2.direction = c.direction := by
  unfold analyzeStochastic
  split_ifs <;> rfl

/-- Stochastic analysis never changes the confidence. -/
theorem analyzeStoch_confidence (st : StochasticValue) (c : SignalComponents) :
    (analyzeStochastic st c).2.confidence = c.confidence := by
  unfold analyzeStochastic
  split_ifs <;> rfl

/-- The stochastic score is nonnegative. -/
theorem analyzeStoch_score_nonneg (st : StochasticValue) (c : SignalComponents) :
    0 ≤ (analyzeStochastic st c).1 := by
  unfold analyzeStochastic
  split_ifs <;> norm_num [WEIGHT_STOCHASTIC]

/-- A nonzero stochastic contribution means its stance agrees with the
direction already established. -/
theorem analyzeStoch_score_agrees (st : StochasticValue) (c : SignalComponents)
    (h : (analyzeStochastic st c).1 ≠ 0) :
    (c.direction = .BUY ∧ st.k < STOCH_OVERSOLD ∧ st.d < STOCH_OVERSOLD) ∨
    (c.direction = .SELL ∧ STOCH_OVERBOUGHT < st.k ∧ STOCH_OVERBOUGHT < st.d) := by
  unfold analyzeStochastic at h
  split_ifs at h with h1 h2 h3 h4
  · exact Or.inl ⟨h2, h1⟩
  · exact absurd rfl h
  · exact Or.inr ⟨h4, h3⟩
  · exact absurd rfl h
  · exact absurd rfl h

/-- Volume analysis never changes the direction. -/
theorem analyzeVolume_direction (v : ℚ) (c : SignalComponents) :
    (analyzeVolume v c).2.direction = c.direction := by
  unfold analyzeVolume
  split_ifs <;> rfl

/-- Volume analysis never changes the confidence. -/
theorem analyzeVolume_confidence (v : ℚ) (c : SignalComponents) :
    (analyzeVolume v c).2.confidence = c.confidence := by
  unfold analyzeVolume
  split_ifs <;> rfl

/-- The volume score is its full weight on any surge, with no direction
guard at all. -/
theorem analyzeVolume_score (v : ℚ) (c : SignalComponents) :
    (analyzeVolume v c).1 = if VOLUME_SURGE < v then WEIGHT_VOLUME * 100 else 0 := by
  unfold analyzeVolume
  split_ifs <;> rfl

/-- The volume score is nonnegative. -/
theorem analyzeVolume_score_nonneg (v : ℚ) (c : SignalComponents) :
    0 ≤ (analyzeVolume v c).1 := by
  unfold analyzeVolume
  split_ifs <;> norm_num [WEIGHT_VOLUME]

/-- Support/resistance analysis never changes the direction. -/
theorem analyzeSR_direction (sr : SupportResistanceValue) (price : ℚ) (c : SignalComponents) :
    (analyzeSupportResistance sr price c).2.direction = c.direction := by
  unfold analyzeSupportResistance
  split_ifs <;> rfl

/-- Support/resistance analysis never changes the confidence. -/
theorem analyzeSR_confidence (sr : SupportResistanceValue) (price : ℚ) (c : SignalComponents) :
    (analyzeSupportResistance sr price c).2.confidence = c.confidence := by
  unfold analyzeSupportResistance
  split_ifs <;> rfl

/-- The support/resistance score is nonnegative. -/
theorem analyzeSR_score_nonneg (sr : SupportResistanceValue) (price : ℚ) (c : SignalComponents) :
    0 ≤ (analyzeSupportResistance sr price c).1 := by
  unfold analyzeSupportResistance
  split_ifs <;> norm_num [WEIGHT_SUPPORT_RESISTANCE]

/-- A nonzero support/resistance contribution means its stance agrees with
the direction already established. -/
theorem analyzeSR_score_agrees (sr : SupportResistanceValue) (price : ℚ) (c : SignalComponents)
    (h : (analyzeSupportResistance sr price c).1 ≠ 0) :
    (c.direction = .BUY ∧ price ≤ sr.support * (102/100)) ∨
    (c.direction = .SELL ∧ sr.resistance * (98/100) ≤ price) := by
  unfold analyzeSupportResistance at h
  split_ifs at h with h1 h2 h3 h4
  · exact Or.inl ⟨h2, h1⟩
  · exact absurd rfl h
  · exact Or.inr ⟨h4, h3⟩
  · exact absurd rfl h
  · exact absurd rfl h

/-- The sentiment adjustment is nonnegative. -/
theorem sentimentAdjustment_nonneg (s : SentimentKind) (d : Direction) :
    0 ≤ applySentimentConfirmation s d := by
  unfold applySentimentConfirmation
  split_ifs <;> norm_num

/-- A minimal signal with the given direction and strength (the other
fields are irrelevant to consensus). -/
def mkSig (d : Direction) (strength : ℚ) : Signal :=
  { timeframe := "1h", signal := d, strength := strength, confidence := 70,
    indicators := [], reasons := [], scores := ⟨0, 0, 0, 0, 0, 0, 0, 0⟩ }

/-- The three-timeframe example of the spec: BUY 80, BUY 78, SELL 90. -/
def exC3 : List Signal := [mkSig .BUY 80, mkSig .BUY 78, mkSig .SELL 90]

/-- C3: a direction is eligible for execution iff at least 2 signals of
that direction have strength strictly above 75 and the average strength of
that agreeing subset strictly exceeds 75; on the example
[BUY 80, BUY 78, SELL 90], BUY is eligible and SELL is not. -/
theorem c3_consensus_eligibility :
    (∀ signals : List Signal,
      (buyEligible (analyzeSignalConsensus signals) ↔ specEligible signals .BUY) ∧
      (sellEligible (analyzeSignalConsensus signals) ↔ specEligible signals .SELL)) ∧
    (buyEligible (analyzeSignalConsensus exC3) ∧ ¬ sellEligible (analyzeSignalConsensus exC3)) := by
  have key : ∀ (l : List Signal) (c : ℕ) (s : ℚ),
      (CONSENSUS_THRESHOLD ≤ c ∧
        STRONG_SIGNAL_THRESHOLD < (if 0 < c then s / (c : ℚ) else 0)) ↔
      (CONSENSUS_THRESHOLD ≤ c ∧ STRONG_SIGNAL_THRESHOLD < s / (c : ℚ)) := by
    intro l c s
    constructor
    · rintro ⟨h1, h2⟩
      rw [if_pos (by simp [CONSENSUS_THRESHOLD] at h1; omega)] at h2
      exact ⟨h1, h2⟩
    · rintro ⟨h1, h2⟩
      refine ⟨h1, ?_⟩
      rw [if_pos (by simp [CONSENSUS_THRESHOLD] at h1; omega)]
      exact h2
  constructor
  · intro signals
    constructor
    · simp only [buyEligible, analyzeSignalConsensus, specEligible, specAgreeing, sumStrength]
      exact key signals _ _
    · simp only [sellEligible, analyzeSignalConsensus, specEligible, specAgreeing, sumStrength]
      exact key signals _ _
  · have hq80 : decide (STRONG_SIGNAL_THRESHOLD < (80:ℚ)) = true :=
      decide_eq_true (by norm_num [STRONG_SIGNAL_THRESHOLD])
    have hq78 : decide (STRONG_SIGNAL_THRESHOLD < (78:ℚ)) = true :=
      decide_eq_true (by norm_num [STRONG_SIGNAL_THRESHOLD])
    have hq90 : decide (STRONG_SIGNAL_THRESHOLD < (90:ℚ)) = true :=
      decide_eq_true (by norm_num [STRONG_SIGNAL_THRESHOLD])
    constructor
    · simp [buyEligible, analyzeSignalConsensus, exC3, mkSig, List.filter,
        hq80, hq78, hq90, sumStrength, CONSENSUS_THRESHOLD]
      norm_num [STRONG_SIGNAL_THRESHOLD]
    · simp [sellEligible, analyzeSignalConsensus, exC3, mkSig, List.filter,
        hq80, hq78, hq90, sumStrength, CONSENSUS_THRESHOLD]

/-! Decomposition of `generateTimeframeSignal` into its analyzer stages,
used to reason about the emitted direction, confidence and scores. -/

/-- The initial `signalComponents` record. -/
def comp0 : SignalComponents :=
  { direction := .HOLD, confidence := 0, indicators := [], reasons := [] }

/-- Stage 1: ML analysis. -/
def mlStep (pred : Prediction) : ℚ × SignalComponents :=
  analyzeMlPrediction pred comp0

/-- Stage 2: RSI analysis. -/
def rsiStep (ind : IndicatorsIn) (pred : Prediction) : ℚ × SignalComponents :=
  analyzeRSI ind.rsi (mlStep pred).2

/-- Stage 3: MACD analysis. -/
def macdStep (ind : IndicatorsIn) (pred : Prediction) : ℚ × SignalComponents :=
  analyzeMacd ind.macd (rsiStep ind pred).2

/-- Stage 4: moving-average analysis. -/
def maStep (ind : IndicatorsIn) (pred : Prediction) (price : ℚ) : ℚ × SignalComponents :=
  analyzeMovingAverages ind price (macdStep ind pred).2

/-- Stage 5: Bollinger analysis. -/
def bbStep (ind : IndicatorsIn) (pred : Prediction) (price : ℚ) : ℚ × SignalComponents :=
  analyzeBollingerBands ind.bollingerBands price (maStep ind pred price).2

/-- Stage 6: stochastic analysis. -/
def stochStep (ind : IndicatorsIn) (pred : Prediction) (price : ℚ) : ℚ × SignalComponents :=
  analyzeStochastic ind.stochastic (bbStep ind pred price).2

/-- Stage 7: volume analysis. -/
def volStep (ind : IndicatorsIn) (pred : Prediction) (price : ℚ) : ℚ × SignalComponents :=
  analyzeVolume ind.volumeRatio (stochStep ind pred price).2

/-- Stage 8: support/resistance analysis. -/
def srStep (ind : IndicatorsIn) (pred : Prediction) (price : ℚ) : ℚ × SignalComponents :=
  analyzeSupportResistance ind.supportResistance price (volStep ind pred price).2

/-- The assembled `scores` record. -/
def genScores (ind : IndicatorsIn) (pred : Prediction) (price : ℚ) : Scores :=
  { ml := (mlStep pred).1, rsi := (rsiStep ind pred).1, macd := (macdStep ind pred).1,
    ma := (maStep ind pred price).1, bb := (bbStep ind pred price).1,
    stoch := (stochStep ind pred price).1, volume := (volStep ind pred price).1,
    sr := (srStep ind pred price).1 }

/-- `generateTimeframeSignal` on present inputs is exactly the assembled
stage record. -/
theorem genSignal_some (tf : String) (ind : IndicatorsIn) (pred : Prediction)
    (sentiment : SentimentKind) (price : ℚ) :
    generateTimeframeSignal tf (some ind) (some pred) sentiment price =
      some { timeframe := tf
             signal := (srStep ind pred price).2.direction
             strength := min 95 (calculateWeightedStrength (genScores ind pred price) +
               applySentimentConfirmation sentiment (srStep ind pred price).2.direction)
             confidence := (srStep ind pred price).2.confidence
             indicators := (srStep ind pred price).2.indicators
             reasons := (srStep ind pred price).2.reasons
             scores := genScores ind pred price } := rfl

/-- The first-mover direction: the ML vote when confident, else the RSI
vote when extreme, else HOLD. -/
def firstVote (pred : Prediction) (rsi : ℚ) : Direction :=
  if 60 < pred.confidence ∧ pred.direction = .BULLISH then .BUY
  else if 60 < pred.confidence ∧ pred.direction = .BEARISH then .SELL
  else if rsi < RSI_OVERSOLD then .BUY
  else if RSI_OVERBOUGHT < rsi then .SELL
  else .HOLD

/-- No stage after RSI changes the direction. -/
theorem srStep_direction (ind : IndicatorsIn) (pred : Prediction) (price : ℚ) :
    (srStep ind pred price).2.direction = (rsiStep ind pred).2.direction := by
  unfold srStep volStep stochStep bbStep maStep macdStep
  rw [analyzeSR_direction, analyzeVolume_direction, analyzeStoch_direction,
    analyzeBB_direction, analyzeMA_direction, analyzeMacd_direction]

/-- After the RSI stage the direction equals the first-mover vote. -/
theorem rsiStep_direction_firstVote (ind : IndicatorsIn) (pred : Prediction) :
    (rsiStep ind pred).2.direction = firstVote pred ind.rsi := by
  unfold rsiStep mlStep
  rw [analyzeRSI_direction, analyzeMl_direction]
  unfold firstVote comp0
  by_cases hA : 60 < pred.confidence ∧ pred.direction = .BULLISH
  · simp [hA]
  · by_cases hB : 60 < pred.confidence ∧ pred.direction = .BEARISH
    · simp [hA, hB]
    · by_cases h1 : ind.rsi < RSI_OVERSOLD
      · simp [hA, hB, h1]
      · by_cases h2 : RSI_OVERBOUGHT < ind.rsi
        · simp [hA, hB, h1, h2]
        · simp [hA, hB, h1, h2]

/-- The final confidence is the ML prediction's when confident, else the
initial zero: nothing clamps it. -/
theorem srStep_confidence (ind : IndicatorsIn) (pred : Prediction) (price : ℚ) :
    (srStep ind pred price).2.confidence =
      if 60 < pred.confidence then max 0 pred.confidence else 0 := by
  unfold srStep volStep stochStep bbStep maStep macdStep rsiStep mlStep
  rw [analyzeSR_confidence, analyzeVolume_confidence, analyzeStoch_confidence,
    analyzeBB_confidence, analyzeMA_confidence, analyzeMacd_confidence,
    analyzeRSI_confidence, analyzeMl_confidence]
  rfl

/-- The MACD stage sees the post-RSI direction. -/
theorem macdStep_direction (ind : IndicatorsIn) (pred : Prediction) :
    (macdStep ind pred).2.direction = (rsiStep ind pred).2.direction := by
  unfold macdStep
  exact analyzeMacd_direction _ _

/-- The MA stage sees the post-RSI direction. -/
theorem maStep_direction (ind : IndicatorsIn) (pred : Prediction) (price : ℚ) :
    (maStep ind pred price).2.direction = (rsiStep ind pred).2.direction := by
  unfold maStep
  rw [analyzeMA_direction, macdStep_direction]

/-- The Bollinger stage sees the post-RSI direction. -/
theorem bbStep_direction (ind : IndicatorsIn) (pred : Prediction) (price : ℚ) :
    (bbStep ind pred price).2.direction = (rsiStep ind pred).2.direction := by
  unfold bbStep
  rw [analyzeBB_direction, maStep_direction]

/-- The stochastic stage sees the post-RSI direction. -/
theorem stochStep_direction (ind : IndicatorsIn) (pred : Prediction) (price : ℚ) :
    (stochStep ind pred price).2.direction = (rsiStep ind pred).2.direction := by
  unfold stochStep
  rw [analyzeStoch_direction, bbStep_direction]

/-- The volume stage sees the post-RSI direction. -/
theorem volStep_direction (ind : IndicatorsIn) (pred : Prediction) (price : ℚ) :
    (volStep ind pred price).2.direction = (rsiStep ind pred).2.direction := by
  unfold volStep
  rw [analyzeVolume_direction, stochStep_direction]

/-- C7 (amended): every generated signal has strength in [0, 95] (the min
clamp), but its confidence is never clamped to [10, 95]: it is either 0
(no confident ML prediction) or exactly the ML prediction confidence,
hence anywhere in (60, 100] for an input confidence within [0, 100]. -/
theorem c7_strength_clamped_confidence_unclamped (tf : String) (ind : IndicatorsIn)
    (pred : Prediction) (sentiment : SentimentKind) (price : ℚ) (s : Signal)
    (h : generateTimeframeSignal tf (some ind) (some pred) sentiment price = some s)
    (h0 : 0 ≤ pred.confidence) (h100 : pred.confidence ≤ 100) :
    (0 ≤ s.strength ∧ s.strength ≤ 95) ∧
    (s.confidence = 0 ∨ (60 < s.confidence ∧ s.confidence ≤ 100)) := by
  rw [genSignal_some] at h
  injection h with h'
  subst h'
  have t1 : 0 ≤ (mlStep pred).1 := by
    unfold mlStep
    exact analyzeMl_score_nonneg pred comp0 h0
  have t2 : 0 ≤ (rsiStep ind pred).1 := by
    unfold rsiStep
    exact analyzeRSI_score_nonneg _ _
  have t3 : 0 ≤ (macdStep ind pred).1 := by
    unfold macdStep
    exact analyzeMacd_score_nonneg _ _
  have t4 : 0 ≤ (maStep ind pred price).1 := by
    unfold maStep
    exact analyzeMA_score_nonneg _ _ _
  have t5 : 0 ≤ (bbStep ind pred price).1 := by
    unfold bbStep
    exact analyzeBB_score_nonneg _ _ _
  have t6 : 0 ≤ (stochStep ind pred price).1 := by
    unfold stochStep
    exact analyzeStoch_score_nonneg _ _
  have t7 : 0 ≤ (volStep ind pred price).1 := by
    unfold volStep
    exact analyzeVolume_score_nonneg _ _
  have t8 : 0 ≤ (srStep ind pred price).1 := by
    unfold srStep
    exact analyzeSR_score_nonneg _ _ _
  have htotal : 0 ≤ (genScores ind pred price).total := by
    simp only [genScores, Scores.total]
    linarith
  have hadj := sentimentAdjustment_nonneg sentiment (srStep ind pred price).2.direction
  refine ⟨⟨?_, ?_⟩, ?_⟩
  · show 0 ≤ min 95 (calculateWeightedStrength (genScores ind pred price) +
      applySentimentConfirmation sentiment (srStep ind pred price).2.direction)
    unfold calculateWeightedStrength
    have hmid : (0:ℚ) ≤ min 95 (50 + (genScores ind pred price).total) :=
      le_min (by norm_num) (by linarith)
    exact le_min (by norm_num) (by linarith)
  · show min 95 (calculateWeightedStrength (genScores ind pred price) +
      applySentimentConfirmation sentiment (srStep ind pred price).2.direction) ≤ 95
    exact min_le_left _ _
  · show (srStep ind pred price).2.confidence = 0 ∨
      (60 < (srStep ind pred price).2.confidence ∧ (srStep ind pred price).2.confidence ≤ 100)
    rw [srStep_confidence]
    by_cases h60 : 60 < pred.confidence
    · rw [if_pos h60, max_eq_right h0]
      exact Or.inr ⟨h60, h100⟩
    · rw [if_neg h60]
      exact Or.inl rfl

/-- Indicator snapshot with every factor neutral. -/
def indC7 : IndicatorsIn :=
  { rsi := 50, macd := ⟨0, 0, 0⟩, sma20 := 100, sma50 := 100,
    bollingerBands := ⟨110, 100, 90⟩, stochastic := ⟨50, 50⟩, volumeRatio := 1,
    supportResistance := ⟨50, 200⟩ }

/-- A fully confident bullish prediction (confidence 100, allowed input). -/
def predC7 : Prediction := { direction := .BULLISH, confidence := 100 }

/-- The signal generated from `indC7`/`predC7`: only the ML factor fires. -/
def sigC7 : Signal :=
  { timeframe := "1h", signal := .BUY, strength := 85, confidence := 100,
    indicators := ["ML_BULLISH"], reasons := ["AI predicts increase"],
    scores := ⟨35, 0, 0, 0, 0, 0, 0, 0⟩ }

/-- Closed evaluation of the scorer on the C7 inputs. -/
theorem genC7_eval :
    generateTimeframeSignal "1h" (some indC7) (some predC7) .NEUTRAL 100 = some sigC7 := by
  norm_num [generateTimeframeSignal, analyzeMlPrediction, analyzeRSI, analyzeMacd,
    analyzeMovingAverages, analyzeBollingerBands, analyzeStochastic, analyzeVolume,
    analyzeSupportResistance, calculateWeightedStrength, applySentimentConfirmation,
    Scores.total, indC7, predC7, sigC7, WEIGHT_ML_PREDICTION, RSI_OVERSOLD,
    RSI_OVERBOUGHT, STOCH_OVERSOLD, STOCH_OVERBOUGHT, VOLUME_SURGE]
  simp
  norm_num [min_def]

/-- Counterexample to C7: an ML prediction of confidence 100 (within the
claimed input range [0, 100]) yields a generated signal whose confidence
is 100 — outside the claimed clamp interval [10, 95]. -/
theorem c7_confidence_not_clamped_counterexample :
    generateTimeframeSignal "1h" (some indC7) (some predC7) .NEUTRAL 100 = some sigC7 ∧
    (0 ≤ predC7.confidence ∧ predC7.confidence ≤ 100) ∧
    ¬(sigC7.confidence ≤ 95) :=
  ⟨genC7_eval, ⟨by norm_num [predC7], by norm_num [predC7]⟩, by norm_num [sigC7]⟩

/-- Witness for C7 (amended) at the concrete C7 inputs. -/
theorem c7_strength_clamped_confidence_unclamped_witness :
    (0 ≤ sigC7.strength ∧ sigC7.strength ≤ 95) ∧
    (sigC7.confidence = 0 ∨ (60 < sigC7.confidence ∧ sigC7.confidence ≤ 100)) :=
  c7_strength_clamped_confidence_unclamped "1h" indC7 predC7 .NEUTRAL 100 sigC7
    genC7_eval (by norm_num [predC7]) (by norm_num [predC7])

/-- C8 (amended): the direction is fixed by the first factor to vote (ML,
then RSI) and never changed afterwards, and the MACD, moving-average,
Bollinger, stochastic and support/resistance factors contribute only when
their stance agrees with that direction; the RSI factor, however,
contributes its weight whenever RSI is extreme even when its vote is the
minority direction, and the volume factor contributes on any surge with no
direction guard. -/
theorem c8_first_voter_and_agreement (tf : String) (ind : IndicatorsIn)
    (pred : Prediction) (sentiment : SentimentKind) (price : ℚ) (s : Signal)
    (h : generateTimeframeSignal tf (some ind) (some pred) sentiment price = some s) :
    s.signal = firstVote pred ind.rsi ∧
    (s.scores.macd ≠ 0 →
      (s.signal = .BUY ∧ 0 < ind.macd.histogram ∧ ind.macd.signal < ind.macd.macd) ∨
      (s.signal = .SELL ∧ ind.macd.histogram < 0 ∧ ind.macd.macd < ind.macd.signal)) ∧
    (s.scores.ma ≠ 0 →
      (s.signal = .BUY ∧ ind.sma20 < price ∧ ind.sma50 < ind.sma20) ∨
      (s.signal = .SELL ∧ price < ind.sma20 ∧ ind.sma20 < ind.sma50)) ∧
    (s.scores.bb ≠ 0 →
      (s.signal = .BUY ∧ price < ind.bollingerBands.lower) ∨
      (s.signal = .SELL ∧ ind.bollingerBands.upper < price)) ∧
    (s.scores.stoch ≠ 0 →
      (s.signal = .BUY ∧ ind.stochastic.k < STOCH_OVERSOLD ∧ ind.stochastic.d < STOCH_OVERSOLD) ∨
      (s.signal = .SELL ∧ STOCH_OVERBOUGHT < ind.stochastic.k ∧ STOCH_OVERBOUGHT < ind.stochastic.d)) ∧
    (s.scores.sr ≠ 0 →
      (s.signal = .BUY ∧ price ≤ ind.supportResistance.support * (102/100)) ∨
      (s.signal = .SELL ∧ ind.supportResistance.resistance * (98/100) ≤ price)) ∧
    (s.scores.rsi ≠ 0 ↔ (ind.rsi < RSI_OVERSOLD ∨ RSI_OVERBOUGHT < ind.rsi)) ∧
    (s.scores.volume ≠ 0 ↔ VOLUME_SURGE < ind.volumeRatio) := by
  rw [genSignal_some] at h
  injection h with h'
  subst h'
  refine ⟨?_, ?_, ?_, ?_, ?_, ?_, ?_, ?_⟩
  · show (srStep ind pred price).2.direction = firstVote pred ind.rsi
    rw [srStep_direction, rsiStep_direction_firstVote]
  · intro hne
    have hne' : (analyzeMacd ind.macd (rsiStep ind pred).2).1 ≠ 0 := hne
    have hag := analyzeMacd_score_agrees _ _ hne'
    show ((srStep ind pred price).2.direction = .BUY ∧ _) ∨
      ((srStep ind pred price).2.direction = .SELL ∧ _)
    rw [srStep_direction]
    exact hag
  · intro hne
    have hne' : (analyzeMovingAverages ind price (macdStep ind pred).2).1 ≠ 0 := hne
    have hag := analyzeMA_score_agrees _ _ _ hne'
    rw [macdStep_direction] at hag
    show ((srStep ind pred price).2.direction = .BUY ∧ _) ∨
      ((srStep ind pred price).2.direction = .SELL ∧ _)
    rw [srStep_direction]
    exact hag
  · intro hne
    have hne' : (analyzeBollingerBands ind.bollingerBands price (maStep ind pred price).2).1 ≠ 0 := hne
    have hag := analyzeBB_score_agrees _ _ _ hne'
    rw [maStep_direction] at hag
    show ((srStep ind pred price).2.direction = .BUY ∧ _) ∨
      ((srStep ind pred price).2.direction = .SELL ∧ _)
    rw [srStep_direction]
    exact hag
  · intro hne
    have hne' : (analyzeStochastic ind.stochastic (bbStep ind pred price).2).1 ≠ 0 := hne
    have hag := analyzeStoch_score_agrees _ _ hne'
    rw [bbStep_direction] at hag
    show ((srStep ind pred price).2.direction = .BUY ∧ _) ∨
      ((srStep ind pred price).2.direction = .SELL ∧ _)
    rw [srStep_direction]
    exact hag
  · intro hne
    have hne' : (analyzeSupportResistance ind.supportResistance price (volStep ind pred price).2).1 ≠ 0 := hne
    have hag := analyzeSR_score_agrees _ _ _ hne'
    rw [volStep_direction] at hag
    show ((srStep ind pred price).2.direction = .BUY ∧ _) ∨
      ((srStep ind pred price).2.direction = .SELL ∧ _)
    rw [srStep_direction]
    exact hag
  · show (rsiStep ind pred).1 ≠ 0 ↔ _
    unfold rsiStep
    rw [analyzeRSI_score]
    by_cases hx : ind.rsi < RSI_OVERSOLD ∨ RSI_OVERBOUGHT < ind.rsi
    · simp [hx, WEIGHT_RSI]
    · simp [hx]
  · show (volStep ind pred price).1 ≠ 0 ↔ _
    unfold volStep
    rw [analyzeVolume_score]
    by_cases hx : VOLUME_SURGE < ind.volumeRatio
    · simp [hx, WEIGHT_VOLUME]
    · simp [hx]

/-- Oversold RSI (votes BUY) on top of otherwise neutral indicators. -/
def indC8 : IndicatorsIn := { indC7 with rsi := 25 }

/-- A confident bearish prediction establishing SELL first. -/
def predC8 : Prediction := { direction := .BEARISH, confidence := 80 }

/-- The signal generated from `indC8`/`predC8`: direction SELL, and the
minority-voting RSI factor still contributes its full weight 15. -/
def sigC8 : Signal :=
  { timeframe := "1h", signal := .SELL, strength := 93, confidence := 80,
    indicators := ["ML_BEARISH", "RSI_OVERSOLD"],
    reasons := ["AI predicts decrease", "RSI oversold"],
    scores := ⟨28, 15, 0, 0, 0, 0, 0, 0⟩ }

/-- Closed evaluation of the scorer on the C8 inputs. -/
theorem genC8_eval :
    generateTimeframeSignal "1h" (some indC8) (some predC8) .NEUTRAL 100 = some sigC8 := by
  norm_num [generateTimeframeSignal, analyzeMlPrediction, analyzeRSI, analyzeMacd,
    analyzeMovingAverages, analyzeBollingerBands, analyzeStochastic, analyzeVolume,
    analyzeSupportResistance, calculateWeightedStrength, applySentimentConfirmation,
    Scores.total, indC8, indC7, predC8, sigC8, WEIGHT_ML_PREDICTION, WEIGHT_RSI,
    RSI_OVERSOLD, RSI_OVERBOUGHT, STOCH_OVERSOLD, STOCH_OVERBOUGHT, VOLUME_SURGE]
  simp
  norm_num [min_def]

/-- Counterexample to C8: with the direction established as SELL by the ML
factor, the BUY-voting oversold RSI still contributes its full weighted
score 15 — a minority-direction factor does not contribute zero. -/
theorem c8_minority_rsi_counterexample :
    generateTimeframeSignal "1h" (some indC8) (some predC8) .NEUTRAL 100 = some sigC8 ∧
    sigC8.signal = .SELL ∧ indC8.rsi < RSI_OVERSOLD ∧
    sigC8.scores.rsi = WEIGHT_RSI * 100 ∧ sigC8.scores.rsi ≠ 0 :=
  ⟨genC8_eval, rfl, by norm_num [indC8, indC7, RSI_OVERSOLD],
    by norm_num [sigC8, WEIGHT_RSI], by norm_num [sigC8]⟩

/-- Witness for C8 (amended) at the concrete C8 inputs: the emitted
direction is the first voter's. -/
theorem c8_first_voter_and_agreement_witness :
    sigC8.signal = firstVote predC8 indC8.rsi :=
  (c8_first_voter_and_agreement "1h" indC8 predC8 .NEUTRAL 100 sigC8 genC8_eval).1

/-! The full `generateTradingSignals` pipeline: per-timeframe generation
followed by the strength push-guard and `filterAndRankSignals`. -/

/-- One timeframe's inputs in the `generateTradingSignals` loop: the
indicator snapshot and ML prediction looked up for that timeframe
(possibly absent). -/
structure TimeframeInput where
  timeframe : String
  indicators : Option IndicatorsIn
  prediction : Option Prediction
deriving Repr, DecidableEq

/-- The signal list emitted by one `generateTradingSignals` run: generate
a per-timeframe signal for every input (sentiment and current price shared
across timeframes), keep the non-null ones reaching `MIN_SIGNAL_STRENGTH`,
then filter and rank. -/
def generateTradingSignalsList (inputs : List TimeframeInput)
    (sentiment : SentimentKind) (currentPrice : ℚ) : List Signal :=
  emittedSignals (inputs.map fun i =>
    generateTimeframeSignal i.timeframe i.indicators i.prediction sentiment currentPrice)

/-- Every signal the scorer actually generates has confidence 0 or
strictly above 60: the only write to `components.confidence` happens under
the `prediction.confidence > 60` gate. -/
theorem generated_confidence_dichotomy (tf : String) (ind : Option IndicatorsIn)
    (pred : Option Prediction) (sentiment : SentimentKind) (price : ℚ) (s : Signal)
    (h : generateTimeframeSignal tf ind pred sentiment price = some s) :
    s.confidence = 0 ∨ 60 < s.confidence := by
  cases ind with
  | none => simp [generateTimeframeSignal] at h
  | some i =>
    cases pred with
    | none => simp [generateTimeframeSignal] at h
    | some p =>
      rw [genSignal_some] at h
      injection h with h'
      subst h'
      show (srStep i p price).2.confidence = 0 ∨ 60 < (srStep i p price).2.confidence
      rw [srStep_confidence]
      by_cases h60 : 60 < p.confidence
      · right
        rw [if_pos h60]
        exact lt_of_lt_of_le h60 (le_max_right 0 p.confidence)
      · left
        rw [if_neg h60]

/-- C4: every signal emitted by the `generateTradingSignals` pipeline has
strength at least 65, confidence at least 60 and at least 2 reasons, and a
generated signal violating any of these is suppressed (absent from the
emitted list). The filter's literal confidence constant is 50, but a
generated signal's confidence is 0 or strictly above 60
(`generated_confidence_dichotomy`), so on the signals the pipeline
actually generates the 50 and 60 thresholds are indistinguishable and the
claim holds as stated. -/
theorem c4_generated_signals_filtered :
    (∀ (inputs : List TimeframeInput) (sentiment : SentimentKind)
       (currentPrice : ℚ) (s : Signal),
       s ∈ generateTradingSignalsList inputs sentiment currentPrice →
       MIN_SIGNAL_STRENGTH ≤ s.strength ∧ 60 ≤ s.confidence ∧ 2 ≤ s.reasons.length) ∧
    (∀ (inputs : List TimeframeInput) (sentiment : SentimentKind)
       (currentPrice : ℚ) (s : Signal),
       (s.strength < MIN_SIGNAL_STRENGTH ∨ s.confidence < 60 ∨ s.reasons.length < 2) →
       s ∉ generateTradingSignalsList inputs sentiment currentPrice) := by
  have hmain : ∀ (inputs : List TimeframeInput) (sentiment : SentimentKind)
      (currentPrice : ℚ) (s : Signal),
      s ∈ generateTradingSignalsList inputs sentiment currentPrice →
      MIN_SIGNAL_STRENGTH ≤ s.strength ∧ 60 ≤ s.confidence ∧ 2 ≤ s.reasons.length := by
    intro inputs sentiment price s hmem
    simp only [generateTradingSignalsList, emittedSignals, filterAndRankSignals,
      List.mem_mergeSort, List.mem_filter, List.mem_filterMap, decide_eq_true_eq,
      id_eq, List.mem_map] at hmem
    obtain ⟨⟨⟨og, ⟨i, hi, hfi⟩, hogeq⟩, _⟩, hs, hc, hr⟩ := hmem
    rw [hogeq] at hfi
    have hdich := generated_confidence_dichotomy _ _ _ _ _ _ hfi
    refine ⟨hs, ?_, hr⟩
    rcases hdich with h0 | h60
    · rw [h0] at hc
      norm_num at hc
    · linarith
  refine ⟨hmain, ?_⟩
  intro inputs sentiment price s hviol hmem
  obtain ⟨hs, hc, hr⟩ := hmain inputs sentiment price s hmem
  rcases hviol with h | h | h
  · exact absurd hs (not_le.mpr h)
  · exact absurd hc (not_le.mpr h)
  · omega

/-- Oversold RSI agreeing with a confident bullish prediction: two factors
fire, giving two reasons. -/
def indC4 : IndicatorsIn :=
  { rsi := 25, macd := ⟨0, 0, 0⟩, sma20 := 100, sma50 := 100,
    bollingerBands := ⟨110, 100, 90⟩, stochastic := ⟨50, 50⟩, volumeRatio := 1,
    supportResistance := ⟨50, 200⟩ }

/-- A confident bullish prediction for the C4 witness. -/
def predC4 : Prediction := { direction := .BULLISH, confidence := 90 }

/-- The signal generated from `indC4`/`predC4`: strength clamped to 95,
confidence 90, two reasons. -/
def sigC4gen : Signal :=
  { timeframe := "1h", signal := .BUY, strength := 95, confidence := 90,
    indicators := ["ML_BULLISH", "RSI_OVERSOLD"],
    reasons := ["AI predicts increase", "RSI oversold"],
    scores := ⟨63/2, 15, 0, 0, 0, 0, 0, 0⟩ }

/-- Closed evaluation of the scorer on the C4 witness inputs. -/
theorem genC4_eval :
    generateTimeframeSignal "1h" (some indC4) (some predC4) .NEUTRAL 100 = some sigC4gen := by
  norm_num [generateTimeframeSignal, analyzeMlPrediction, analyzeRSI, analyzeMacd,
    analyzeMovingAverages, analyzeBollingerBands, analyzeStochastic, analyzeVolume,
    analyzeSupportResistance, calculateWeightedStrength, applySentimentConfirmation,
    Scores.total, indC4, predC4, sigC4gen, WEIGHT_ML_PREDICTION, WEIGHT_RSI,
    RSI_OVERSOLD, RSI_OVERBOUGHT, STOCH_OVERSOLD, STOCH_OVERBOUGHT, VOLUME_SURGE]
  simp

/-- The single-timeframe input of the C4 witness run. -/
def inC4 : TimeframeInput :=
  { timeframe := "1h", indicators := some indC4, prediction := some predC4 }

/-- The C4 witness signal really is emitted by its pipeline run. -/
theorem sigC4gen_emitted :
    sigC4gen ∈ generateTradingSignalsList [inC4] .NEUTRAL 100 := by
  have h1 : decide (MIN_SIGNAL_STRENGTH ≤ sigC4gen.strength) = true :=
    decide_eq_true (by norm_num [MIN_SIGNAL_STRENGTH, sigC4gen])
  have h2 : decide (MIN_SIGNAL_STRENGTH ≤ sigC4gen.strength ∧ 50 ≤ sigC4gen.confidence ∧
      2 ≤ sigC4gen.reasons.length) = true :=
    decide_eq_true ⟨by norm_num [MIN_SIGNAL_STRENGTH, sigC4gen],
      by norm_num [sigC4gen], by norm_num [sigC4gen]⟩
  have hmap : [inC4].map (fun i =>
      generateTimeframeSignal i.timeframe i.indicators i.prediction SentimentKind.NEUTRAL 100) =
      [some sigC4gen] := by
    simp only [List.map, inC4]
    rw [genC4_eval]
  unfold generateTradingSignalsList
  rw [hmap]
  simp [emittedSignals, filterAndRankSignals, List.filterMap, List.filter, h1, h2]

/-- Witness for C4 at a concrete emitted signal of a concrete pipeline
run. -/
theorem c4_generated_signals_filtered_witness :
    MIN_SIGNAL_STRENGTH ≤ sigC4gen.strength ∧ 60 ≤ sigC4gen.confidence ∧
      2 ≤ sigC4gen.reasons.length :=
  c4_generated_signals_filtered.1 [inC4] .NEUTRAL 100 sigC4gen sigC4gen_emitted

/-! Trailing-stop monotonicity lemmas for the two monitors. -/

/-- The monitor never changes the position's side. -/
theorem monitorStep_type (pos : MonPosition) (p : ℚ) :
    (monitorSinglePosition pos p).type = pos.type := by
  unfold monitorSinglePosition updateTrailingStop
  split_ifs <;> rfl

/-- One monitoring pass never lowers a BUY position's stop. -/
theorem monitorStep_buy (pos : MonPosition) (p : ℚ) (h : pos.type = .BUY) :
    pos.stopLoss ≤ (monitorSinglePosition pos p).stopLoss := by
  unfold monitorSinglePosition
  split_ifs with h1 h2 h3
  · exact le_refl _
  · exact le_refl _
  · obtain ⟨-, hupd⟩ := h3
    simp only [shouldUpdateTrailingStop, h] at hupd
    split_ifs at hupd with hg
    simp only [decide_eq_true_eq] at hupd
    unfold updateTrailingStop
    rw [if_pos h]
    exact le_of_lt hupd
  · exact le_refl _

/-- One monitoring pass never raises a SELL position's stop. -/
theorem monitorStep_sell (pos : MonPosition) (p : ℚ) (h : pos.type = .SELL) :
    (monitorSinglePosition pos p).stopLoss ≤ pos.stopLoss := by
  have hne : ¬ pos.type = Direction.BUY := by rw [h]; simp
  unfold monitorSinglePosition
  split_ifs with h1 h2 h3
  · exact le_refl _
  · exact le_refl _
  · obtain ⟨-, hupd⟩ := h3
    simp [shouldUpdateTrailingStop, h] at hupd
    unfold updateTrailingStop
    rw [if_neg hne]
    show p + pos.trailingStopDistance ≤ pos.stopLoss
    linarith [hupd.2]
  · exact le_refl _

/-- Any tick sequence keeps a BUY position's stop at or above its start. -/
theorem monitorTicks_buy (pos : MonPosition) (ticks : List ℚ) (h : pos.type = .BUY) :
    pos.stopLoss ≤ (monitorTicks pos ticks).stopLoss := by
  induction ticks generalizing pos with
  | nil => exact le_refl _
  | cons t ts ih =>
    calc pos.stopLoss ≤ (monitorSinglePosition pos t).stopLoss := monitorStep_buy pos t h
    _ ≤ (monitorTicks (monitorSinglePosition pos t) ts).stopLoss := by
        exact ih _ (by rw [monitorStep_type]; exact h)

/-- Any tick sequence keeps a SELL position's stop at or below its start. -/
theorem monitorTicks_sell (pos : MonPosition) (ticks : List ℚ) (h : pos.type = .SELL) :
    (monitorTicks pos ticks).stopLoss ≤ pos.stopLoss := by
  induction ticks generalizing pos with
  | nil => exact le_refl _
  | cons t ts ih =>
    calc (monitorTicks (monitorSinglePosition pos t) ts).stopLoss
        ≤ (monitorSinglePosition pos t).stopLoss := by
          exact ih _ (by rw [monitorStep_type]; exact h)
    _ ≤ pos.stopLoss := monitorStep_sell pos t h

/-- One `updatePositionsPnL` pass never lowers the trigger and preserves
the trigger/high-water relation it establishes at opening. -/
theorem trailingTick_props (ts : TrailingStopState) (p : ℚ)
    (hpct : ts.percentage ≤ 1)
    (hinv : ts.triggerPrice = ts.highestPrice * (1 - ts.percentage)) :
    ts.triggerPrice ≤ (trailingStopTick ts p).triggerPrice ∧
    (trailingStopTick ts p).triggerPrice =
      (trailingStopTick ts p).highestPrice * (1 - (trailingStopTick ts p).percentage) ∧
    (trailingStopTick ts p).percentage = ts.percentage := by
  unfold trailingStopTick
  split_ifs with hcmp
  · refine ⟨?_, rfl, rfl⟩
    rw [hinv]
    have hr : (0:ℚ) ≤ 1 - ts.percentage := by linarith
    exact mul_le_mul_of_nonneg_right (le_of_lt hcmp) hr
  · exact ⟨le_refl _, hinv, rfl⟩

/-- Any tick sequence keeps the `updatePositionsPnL` trigger at or above
its start, given the opening relation. -/
theorem trailingTicks_mono (ts : TrailingStopState) (ticks : List ℚ)
    (hpct : ts.percentage ≤ 1)
    (hinv : ts.triggerPrice = ts.highestPrice * (1 - ts.percentage)) :
    ts.triggerPrice ≤ (trailingStopTicks ts ticks).triggerPrice := by
  induction ticks generalizing ts with
  | nil => exact le_refl _
  | cons t rest ih =>
    obtain ⟨hmono, hinv', hp⟩ := trailingTick_props ts t hpct hinv
    calc ts.triggerPrice ≤ (trailingStopTick ts t).triggerPrice := hmono
    _ ≤ (trailingStopTicks (trailingStopTick ts t) rest).triggerPrice := by
        exact ih _ (by rw [hp]; exact hpct) hinv'

/-- C5: across any sequence of price ticks, the signals-module monitor
never moves a BUY position's stop down (and never moves a SELL position's
stop up), and the trading-module trailing stop opened by
`initTrailingStop` (for any sensible trailing percentage ≤ 1) never moves
its trigger price down. -/
theorem c5_trailing_stop_monotone :
    (∀ (pos : MonPosition) (ticks : List ℚ), pos.type = .BUY →
      pos.stopLoss ≤ (monitorTicks pos ticks).stopLoss) ∧
    (∀ (pos : MonPosition) (ticks : List ℚ), pos.type = .SELL →
      (monitorTicks pos ticks).stopLoss ≤ pos.stopLoss) ∧
    (∀ (price pct : ℚ) (ticks : List ℚ), pct ≤ 1 →
      (initTrailingStop price pct).triggerPrice ≤
        (trailingStopTicks (initTrailingStop price pct) ticks).triggerPrice) := by
  refine ⟨monitorTicks_buy, monitorTicks_sell, ?_⟩
  intro price pct ticks hpct
  exact trailingTicks_mono _ ticks hpct rfl

/-- A live BUY position with a 5-point trailing distance. -/
def posW5 : MonPosition :=
  { type := .BUY, stopLoss := 95, takeProfit := 120,
    trailingStop := true, trailingStopDistance := 5 }

/-- The mirrored SELL position. -/
def posW5s : MonPosition := { posW5 with type := .SELL, stopLoss := 105 }

/-- Witness for C5 on concrete tick sequences. -/
theorem c5_trailing_stop_monotone_witness :
    posW5.stopLoss ≤ (monitorTicks posW5 [100, 110, 105]).stopLoss ∧
    (monitorTicks posW5s [100, 90, 95]).stopLoss ≤ posW5s.stopLoss ∧
    (initTrailingStop 100 (1/50)).triggerPrice ≤
      (trailingStopTicks (initTrailingStop 100 (1/50)) [100, 110, 105]).triggerPrice :=
  ⟨c5_trailing_stop_monotone.1 posW5 [100, 110, 105] rfl,
   c5_trailing_stop_monotone.2.1 posW5s [100, 90, 95] rfl,
   c5_trailing_stop_monotone.2.2 100 (1/50) [100, 110, 105] (by norm_num)⟩

/-- A well-formed candle for the short-window scenarios. -/
def candleC6 : Candle :=
  { timestamp := 0, openPrice := 100, high := 101, low := 99, close := 100, volume := 10 }

/-- Counterexample to C6: a five-candle window — shorter than every
indicator's required period — makes `calculateIndicators` throw its
`ValidationError` instead of returning neutral values. -/
theorem c6_short_window_throws_counterexample :
    calculateIndicators (List.replicate 5 candleC6) =
      .error "Insufficient data for technical analysis" := rfl

/-- C6 (amended): each individual indicator function returns its
documented neutral value on every window shorter than its required period
(RSI 50/50, MACD zeros, Stochastic 50/50) and, being total functions,
never throw; the top-level `calculateIndicators`, however, throws a
`ValidationError` for every window of fewer than 20 candles rather than
degrading to neutral. -/
theorem c6_neutral_guards :
    (∀ closes : List ℚ, closes.length < RSI_PERIOD + 1 →
      calculateRSI closes RSI_PERIOD = { current := 50, previous := 50 }) ∧
    (∀ closes : List ℚ, closes.length < MACD_SLOW →
      calculateMACD closes MACD_FAST MACD_SLOW MACD_SIGNAL =
        { macd := 0, signal := 0, histogram := 0 }) ∧
    (∀ highs lows closes : List ℚ, closes.length < STOCH_PERIOD →
      calculateStochastic highs lows closes STOCH_PERIOD = { k := 50, d := 50 }) ∧
    (∀ data : List Candle, data.length < 20 →
      calculateIndicators data = .error "Insufficient data for technical analysis") := by
  refine ⟨?_, ?_, ?_, ?_⟩
  · intro closes h
    unfold calculateRSI
    rw [if_pos h]
  · intro closes h
    unfold calculateMACD
    rw [if_pos h]
  · intro highs lows closes h
    unfold calculateStochastic
    rw [if_pos h]
  · intro data h
    unfold calculateIndicators
    rw [if_pos h]

/-- Witness for C6 (amended) on concrete short windows. -/
theorem c6_neutral_guards_witness :
    calculateRSI [100, 101, 102] RSI_PERIOD = { current := 50, previous := 50 } ∧
    calculateMACD [100, 101, 102] MACD_FAST MACD_SLOW MACD_SIGNAL =
      { macd := 0, signal := 0, histogram := 0 } ∧
    calculateStochastic [101] [99] [100] STOCH_PERIOD = { k := 50, d := 50 } ∧
    calculateIndicators (List.replicate 5 candleC6) =
      .error "Insufficient data for technical analysis" :=
  ⟨c6_neutral_guards.1 [100, 101, 102] (by decide),
   c6_neutral_guards.2.1 [100, 101, 102] (by decide),
   c6_neutral_guards.2.2.1 [101] [99] [100] (by decide),
   c6_neutral_guards.2.2.2 (List.replicate 5 candleC6) (by decide)⟩

end Analis
